import Mathlib

/-!
Verification model of the Etsy reports engine (`reportsv4_optimized.py`).

Strings from the Python side are modelled as lists of Unicode code points
(`PyStr`); the case conversions model Python's `str.upper` / `str.lower`
on the ASCII range, which covers every prefix constant the normalizer
uses.  Money and weights are modelled as exact rationals; the `round(x, n)`
calls the program applies when serialising a metrics dictionary are a
presentation step and are not modelled, matching the "modulo floating
rounding" readings of the properties.
-/

/-- A Python string as a list of code points. -/
abbrev PyStr := List Nat

/-- Build a `PyStr` from a Lean string literal. -/
def pstr (s : String) : PyStr := s.data.map Char.toNat

/-- Python `str.upper` on one ASCII code point (`a`-`z` maps to `A`-`Z`). -/
def upChar (n : Nat) : Nat := if 97 ≤ n ∧ n ≤ 122 then n - 32 else n

/-- Python `str.lower` on one code point: the ASCII mapping (`A`-`Z` to
`a`-`z`) together with U+212A KELVIN SIGN → `k`, the non-ASCII-to-ASCII
lower mapping that breaks the normalizer's idempotence even on
whitespace-free input; the remaining Unicode case table is outside the
model, which is why the idempotence theorem quantifies over ASCII
strings only. -/
def lowChar (n : Nat) : Nat :=
  if 65 ≤ n ∧ n ≤ 90 then n + 32
  else if n = 8490 then 107
  else n

/-- Whitespace test used by Python `str.strip`: the full set of code
points `str.isspace` accepts — `\t`-`\r` (9-13), the separators 28-31,
space, NEL (133), NBSP (160), OGHAM SPACE (5760), the Unicode spaces
8192-8202, LINE/PARAGRAPH SEPARATOR (8232, 8233), NARROW NBSP (8239),
MATH SPACE (8287) and IDEOGRAPHIC SPACE (12288). -/
def isWs (n : Nat) : Bool :=
  (9 ≤ n ∧ n ≤ 13) || (28 ≤ n ∧ n ≤ 31) || n = 32 || n = 133 || n = 160 ||
  n = 5760 || (8192 ≤ n ∧ n ≤ 8202) || n = 8232 || n = 8233 || n = 8239 ||
  n = 8287 || n = 12288

/-- Python `str.strip`: drop whitespace from both ends. -/
def pyStrip (s : PyStr) : PyStr :=
  ((s.dropWhile isWs).reverse.dropWhile isWs).reverse

/-- Python `str.upper` (ASCII model). -/
def pyUpper (s : PyStr) : PyStr := s.map upChar

/-- Python `str.lower` (ASCII model). -/
def pyLower (s : PyStr) : PyStr := s.map lowChar

/-- The `prefixes_to_remove` list of `_normalize_sku_for_comparison`,
in source order of precedence. -/
def prefixesToRemove : List PyStr :=
  [pstr ("DELETED-"), pstr ("OT-"), pstr ("ZSTK-"), pstr ("MG-"),
   pstr ("LND-"), pstr ("EU-"), pstr ("US-"), pstr ("UK-"),
   pstr ("CA-"), pstr ("AU-"), pstr ("JP-")]

/-- One pass of the stripping loop body: the first listed prefix that
matches the head of `upper(s)` is removed; `none` when no prefix matches
(the loop's `changed` stays false). -/
def stripOnce (s : PyStr) : Option PyStr :=
  prefixesToRemove.findSome? fun p =>
    if p.isPrefixOf (pyUpper s) then some (s.drop p.length) else none

/-- The `while changed` loop, driven by fuel; each successful pass removes
at least one code point, so `s.length` steps always suffice. -/
def stripLoopFuel : Nat → PyStr → PyStr
  | 0, s => s
  | fuel + 1, s =>
    match stripOnce s with
    | some t => stripLoopFuel fuel t
    | none => s

/-- Strip known prefixes from the head of `s` until none matches. -/
def stripLoop (s : PyStr) : PyStr := stripLoopFuel s.length s

/-- `_normalize_sku_for_comparison`: guard on the empty string, strip
surrounding whitespace, strip known prefixes repeatedly
(case-insensitively), then lower-case the remainder. -/
def normalizeSku (s : PyStr) : PyStr :=
  if s = [] then s else pyLower (stripLoop (pyStrip s))

/-- `s` contains no whitespace code point. -/
def noWs (s : PyStr) : Prop := ∀ c ∈ s, isWs c = false

instance (s : PyStr) : Decidable (noWs s) := by
  unfold noWs; infer_instance

/-- `s` lies in the ASCII range, where the modelled case conversions
agree with Python exactly. -/
def isAscii (s : PyStr) : Prop := ∀ c ∈ s, c < 128

instance (s : PyStr) : Decidable (isAscii s) := by
  unfold isAscii; infer_instance

/-!
## Cost Index (`get_cost_for_sku_date`, `get_cost_with_fallback`)

A cost CSV row is modelled by its precomputed `_normalized_sku` key and
its populated month cells.  The program probes many column-name variants
("US MAYIS 2025", "US MART 25", ...) per (year, month); all variants of
one period collapse here into a single optional cell, and a cell is
present exactly when some variant column holds a parseable value.
-/

/-- One cost CSV row: the precomputed normalized SKU key and the present
(year, month, value) cells. -/
structure CostRow where
  nsku : PyStr
  cells : List (Int × Int × ℚ)
deriving DecidableEq, Repr

/-- The cost table: rows in CSV order (`cost_data`). -/
abbrev CostIndex := List CostRow

/-- Exact-date lookup inside one row: the first present cell at
`(year, month)` (mirrors the first matching column-name variant). -/
def exactCell (r : CostRow) (year month : Int) : Option ℚ :=
  (r.cells.find? fun c => c.1 = year ∧ c.2.1 = month).map (·.2.2)

/-- The most-recent-cost fallback of `get_cost_for_sku_date`: among the
row's cells with a positive value, the one maximal in `(year, value)`
(the code sorts `(year, cost, column)` tuples descending and takes the
head; two candidates tying on year and value carry the same value). -/
def mostRecentPositive (r : CostRow) : Option ℚ :=
  (r.cells.foldl (fun best c =>
      if c.2.2 > 0 then
        match best with
        | none => some (c.1, c.2.2)
        | some b => if c.1 > b.1 ∨ (c.1 = b.1 ∧ c.2.2 > b.2) then some (c.1, c.2.2) else best
      else best) none).map (·.2)

/-- `get_cost_for_sku_date(sku, year, month)`: guard on empty SKU / empty
table, find the row whose `_normalized_sku` equals the normalized probe,
guard on a valid month, return the exact cell if present (whatever its
value), else the most recent positive cost of the same row, else 0. -/
def getCostForSkuDate (idx : CostIndex) (sku : PyStr) (year month : Int) : ℚ :=
  if sku = [] then 0 else
  match idx.find? (fun r => r.nsku = normalizeSku sku) with
  | none => 0
  | some r =>
    if month < 1 ∨ 12 < month then 0 else
    match exactCell r year month with
    | some v => v
    | none =>
      match mostRecentPositive r with
      | some v => v
      | none => 0

/-- Provenance tag of a resolved cost. -/
inductive Provenance where
  | direct
  | siblingSamePeriod
  | siblingHistorical
  | missing
deriving DecidableEq, Repr

/-- One step back in time: `month -= 1; if month < 1: month = 12; year -= 1`. -/
def prevYearMonth (ym : Int × Int) : Int × Int :=
  if ym.2 - 1 < 1 then (ym.1 - 1, 12) else (ym.1, ym.2 - 1)

/-- The 24 periods walked backward from `(year, month)`, nearest first. -/
def historicalPeriods (year month : Int) : List (Int × Int) :=
  (go 24 (year, month)).reverse
where
  go : Nat → Int × Int → List (Int × Int)
    | 0, _ => []
    | n + 1, ym => go n (prevYearMonth ym) ++ [prevYearMonth ym]

/-- First sibling in list order whose cost at `(year, month)` is positive. -/
def firstPositiveSibling (idx : CostIndex) (sibs : List PyStr)
    (year month : Int) : Option ℚ :=
  sibs.findSome? fun s =>
    let c := getCostForSkuDate idx s year month
    if c > 0 then some c else none

/-- `get_cost_with_fallback(sku, year, month, listing_id)`.  `childSkus`
models `get_child_skus_for_listing`; a `listing_id` of `None` or `0` is
falsy in the source (`if not listing_id`) and short-circuits to missing.
The model is a total function, so no input can raise. -/
def getCostWithFallback (idx : CostIndex) (childSkus : Int → List PyStr)
    (sku : PyStr) (year month : Int) (listingId : Option Int) : ℚ × Provenance :=
  let direct := getCostForSkuDate idx sku year month
  if direct > 0 then (direct, .direct)
  else
    match listingId with
    | none => (0, .missing)
    | some lid =>
      if lid = 0 then (0, .missing) else
      let sibs := (childSkus lid).filter
        (fun s => ¬ normalizeSku s = normalizeSku sku)
      if sibs = [] then (0, .missing) else
      match firstPositiveSibling idx sibs year month with
      | some c => (c, .siblingSamePeriod)
      | none =>
        match (historicalPeriods year month).findSome?
            (fun ym => firstPositiveSibling idx sibs ym.1 ym.2) with
        | some c => (c, .siblingHistorical)
        | none => (0, .missing)

/-- The fallback cascade exactly as the claims describe it: direct when
positive, else each sibling of the listing (queried SKU excluded under
normalized comparison) at the same period, else every sibling walking
backward month-by-month over 24 months, else value 0 with provenance
missing.  Stated from the claim wording, to be compared with the
source-derived `getCostWithFallback`. -/
def resolveCostSpec (idx : CostIndex) (childSkus : Int → List PyStr)
    (sku : PyStr) (year month : Int) (listingId : Option Int) : ℚ × Provenance :=
  let direct := getCostForSkuDate idx sku year month
  if direct > 0 then (direct, .direct)
  else
    let sibs := match listingId with
      | none => []
      | some lid => (childSkus lid).filter
          (fun s => ¬ normalizeSku s = normalizeSku sku)
    match firstPositiveSibling idx sibs year month with
    | some c => (c, .siblingSamePeriod)
    | none =>
      match (historicalPeriods year month).findSome?
          (fun ym => firstPositiveSibling idx sibs ym.1 ym.2) with
      | some c => (c, .siblingHistorical)
      | none => (0, .missing)

/-!
## Shipping Profile Index
(`get_desi_for_sku`, `get_zone_for_country`, `get_fedex_price`,
`get_us_shipping_costs`)

The reference tables and the two SKU→OTTOKOD dictionaries built at
startup are modelled as read-only lookup data carried by `ShipEnv`.
A lookup that would fail to parse in Python is modelled as absent.
-/

/-- The per-SKU US flat table entry (rates already divided by 100 as in
`_preload_bulk_costs` / `_extract_shipping_costs_from_row`). -/
structure USCosts where
  fedex_charge : ℚ
  processing_fee : ℚ
  duty_rate : ℚ
  duty_amount : ℚ
  tax_rate : ℚ
  tax_amount : ℚ
deriving DecidableEq, Repr

/-- The all-zero `default_result` of `get_us_shipping_costs`. -/
def defaultUSCosts : USCosts := ⟨0, 0, 0, 0, 0, 0⟩

/-- One row of the zone×weight FedEx price matrix: the weight tier and
the per-zone price columns (`"N.Bölge"`), absent when the column is
missing or unparseable. -/
structure PricingRow where
  weight : ℚ
  zonePrice : Int → Option ℚ

/-- One row of the US FedEx CSV as seen by the DataFrame fallback of
`get_us_shipping_costs` (either a SKU-keyed or an OTTOKOD-keyed file). -/
structure UsCsvRow where
  key : PyStr
  costs : USCosts

/-- Read-only shipping lookup data built at startup. -/
structure ShipEnv where
  /-- `sku_to_ottokod` (raw SKU → OTTOKOD). -/
  skuToOttokod : PyStr → Option PyStr
  /-- `sku_to_ottokod_normalized` (normalized SKU → OTTOKOD). -/
  skuToOttokodNorm : PyStr → Option PyStr
  /-- OTTOKOD → parsed `DESİ` weight from `desi_data` (absent when the
  row is missing, the `OTTOKOD` column is missing, or parsing fails). -/
  desiByOttokod : PyStr → Option ℚ
  /-- `desi_data.empty`. -/
  desiEmpty : Bool
  /-- `(SKU, OTTOKOD)` pairs of the cost CSV, in row order, for the
  row-scan fallback of `get_desi_for_sku` (empty when `cost_data` is
  empty or has no `SKU` column). -/
  costCsvRows : List (PyStr × Option PyStr)
  /-- `_bulk_shipping_cache` (SKU or OTTOKOD key → US costs). -/
  bulkShip : PyStr → Option USCosts
  /-- `_bulk_shipping_cache_normalized` (normalized SKU → original SKU). -/
  bulkShipNorm : PyStr → Option PyStr
  /-- US FedEx CSV rows keyed by `SKU` (`none` when the DataFrame is
  empty or lacks a `SKU` column). -/
  usSkuRows : Option (List UsCsvRow)
  /-- US FedEx CSV rows keyed by `OTTOKOD` (`none` when the DataFrame is
  empty or lacks an `OTTOKOD` column). -/
  usOttokodRows : Option (List UsCsvRow)
  /-- `fedex_zones_data` as `(Country_Code, Zone)` rows. -/
  zoneRows : List (PyStr × Int)
  /-- `fedex_pricing_data` rows. -/
  pricingRows : List PricingRow

/-- `get_desi_for_sku(sku)`: three lookup approaches, each falling
through to the next on a miss, with a default weight of 0.5 kg. -/
def getDesiForSku (env : ShipEnv) (sku : PyStr) : ℚ :=
  if env.desiEmpty ∨ sku = [] then 1/2 else
  let viaOttokod : Option PyStr → Option ℚ := fun o =>
    o.bind fun ok => if ok = [] then none else env.desiByOttokod ok
  match viaOttokod (env.skuToOttokod sku) with
  | some d => d
  | none =>
    let ns := normalizeSku sku
    match (if ns = [] then none else viaOttokod (env.skuToOttokodNorm ns)) with
    | some d => d
    | none =>
      match env.costCsvRows.findSome? (fun row =>
          if normalizeSku row.1 = ns then row.2.bind env.desiByOttokod
          else none) with
      | some d => d
      | none => 1/2

/-- `get_zone_for_country(country_code)`: case-insensitive match on the
`Country_Code` column, defaulting to zone 8 on an empty table, an empty
code, or a miss. -/
def getZoneForCountry (env : ShipEnv) (cc : PyStr) : Int :=
  if env.zoneRows = [] ∨ cc = [] then 8 else
  match env.zoneRows.find? (fun r => pyUpper r.1 = pyUpper cc) with
  | none => 8
  | some r => r.2

/-- The distinct weight tiers of the pricing matrix in ascending order
(`sorted(self.fedex_pricing_data['Weight'].unique())`). -/
def weightTiers (env : ShipEnv) : List ℚ :=
  ((env.pricingRows.map (·.weight)).dedup).mergeSort (· ≤ ·)

/-- `get_fedex_price(weight_kg, zone)`: round the queried weight up to
the first tier that is ≥ it (the tiers being sorted ascending), clamp to
the last tier when it exceeds all of them, then read that tier's zone
column, with 0 on any miss. -/
def getFedexPrice (env : ShipEnv) (weightKg : ℚ) (zone : Int) : ℚ :=
  if env.pricingRows.isEmpty then 0 else
  let tiers := weightTiers env
  let tier := match tiers.find? (fun t => weightKg ≤ t) with
    | some t => t
    | none => tiers.getLastD weightKg
  match env.pricingRows.find? (fun r => r.weight = tier) with
  | none => 0
  | some r => (r.zonePrice zone).getD 0

/-- `get_us_shipping_costs(sku)`: bulk cache by SKU, by OTTOKOD, by
normalized-SKU→OTTOKOD, by the normalized cache, then the DataFrame
fallback (exact then normalized SKU match, or OTTOKOD match), defaulting
to all zeros.  The `ottokod` consulted by the OTTOKOD-keyed DataFrame
branch is the variable's last assignment in the source: the
normalized-SKU mapping when the normalized SKU is truthy, else the exact
mapping. -/
def getUsShippingCosts (env : ShipEnv) (sku : PyStr) : USCosts :=
  if sku = [] then defaultUSCosts else
  match env.bulkShip sku with
  | some c => c
  | none =>
    let truthy : Option PyStr → Option PyStr := fun o =>
      o.bind fun k => if k = [] then none else some k
    let ottokodExact := truthy (env.skuToOttokod sku)
    match ottokodExact.bind env.bulkShip with
    | some c => c
    | none =>
      let ns := normalizeSku sku
      let ottokodLast := if ns = [] then ottokodExact
        else truthy (env.skuToOttokodNorm ns)
      match (if ns = [] then none else ottokodLast.bind env.bulkShip) with
      | some c => c
      | none =>
        match (env.bulkShipNorm ns).bind env.bulkShip with
        | some c => c
        | none =>
          match env.usSkuRows with
          | some rows =>
            match rows.find? (fun r => pyStrip r.key = pyStrip sku) with
            | some r => r.costs
            | none =>
              match rows.find? (fun r => normalizeSku r.key = ns) with
              | some r => r.costs
              | none => defaultUSCosts
          | none =>
            match env.usOttokodRows with
            | some rows =>
              match ottokodLast.bind (fun ok =>
                  (rows.find? (fun r => pyStrip r.key = pyStrip ok)).map (·.costs)) with
              | some c => c
              | none => defaultUSCosts
            | none => defaultUSCosts

/-!
## Metrics documents (`_calculate_metrics_from_rows`, `_empty_metrics`)

The metrics dictionary is modelled as a record covering the field
families the aggregation engine touches: every additive field summed by
`_sum_metrics`, every ratio it recomputes, the volume rates it does not,
and the cost-quality fields.  Purely presentational leaf statistics that
no aggregation step reads or writes (order-value percentiles, temporal
peaks, payment-method tallies, CLV-style projections) are outside the
model.  Counts are integers as in Python; money is exact rationals.
-/

/-- The `cost_data_sources` sub-dictionary: quantity resolved per tier. -/
structure CostDataSources where
  direct : ℤ
  sibling_same_period : ℤ
  sibling_historical : ℤ
  missing : ℤ
deriving DecidableEq, Repr

def zeroSources : CostDataSources := ⟨0, 0, 0, 0⟩

/-- A metrics document (one `(scope, period)` report). -/
structure Metrics where
  period_days : ℤ
  gross_revenue : ℚ
  total_revenue : ℚ
  product_revenue : ℚ
  total_shipping_charged : ℚ
  total_tax_collected : ℚ
  total_vat_collected : ℚ
  total_gift_wrap_revenue : ℚ
  total_discounts_given : ℚ
  etsy_transaction_fees : ℚ
  etsy_processing_fees : ℚ
  total_etsy_fees : ℚ
  etsy_fee_rate : ℚ
  net_revenue : ℚ
  net_revenue_after_refunds : ℚ
  take_home_rate : ℚ
  discount_rate : ℚ
  actual_shipping_cost : ℚ
  shipping_profit : ℚ
  duty_amount : ℚ
  tax_amount : ℚ
  fedex_processing_fee : ℚ
  total_cost : ℚ
  total_cost_with_shipping : ℚ
  avg_cost_per_item : ℚ
  cost_per_order : ℚ
  contribution_margin : ℚ
  gross_profit : ℚ
  gross_margin : ℚ
  net_profit : ℚ
  net_margin : ℚ
  return_on_revenue : ℚ
  markup_ratio : ℚ
  total_ad_spend : ℚ
  total_orders : ℤ
  total_items : ℤ
  total_quantity_sold : ℤ
  unique_skus : ℤ
  average_order_value : ℚ
  items_per_order : ℚ
  revenue_per_item : ℚ
  profit_per_item : ℚ
  unique_customers : ℤ
  repeat_customers : ℤ
  customer_retention_rate : ℚ
  revenue_per_customer : ℚ
  orders_per_customer : ℚ
  profit_per_customer : ℚ
  shipped_orders : ℤ
  shipping_rate : ℚ
  gift_orders : ℤ
  gift_rate : ℚ
  total_refund_amount : ℚ
  total_refund_count : ℤ
  orders_with_refunds : ℤ
  etsy_fees_retained_on_refunds : ℚ
  refund_rate_by_order : ℚ
  refund_rate_by_value : ℚ
  order_refund_rate : ℚ
  cancelled_orders : ℤ
  cancellation_rate : ℚ
  completion_rate : ℚ
  total_inventory : ℤ
  active_variants : ℤ
  has_complete_cost_data : Bool
  cost_coverage_percent : ℚ
  cost_data_sources : CostDataSources
  items_with_direct_cost : ℤ
  items_with_fallback_cost : ℤ
  items_missing_cost : ℤ
  /-- Set by `_aggregate_from_listings` only; 0 elsewhere. -/
  listings_skipped_no_cost : ℤ
  /-- Set by `_aggregate_from_listings` only; 0 elsewhere. -/
  listings_included : ℤ

/-- `_empty_metrics`: the all-zero document returned when a period has
no completed orders.  Every counter is zero — including the cancellation
counters — and the cost-quality flag is `False`. -/
def emptyMetrics : Metrics where
  period_days := 0
  gross_revenue := 0
  total_revenue := 0
  product_revenue := 0
  total_shipping_charged := 0
  total_tax_collected := 0
  total_vat_collected := 0
  total_gift_wrap_revenue := 0
  total_discounts_given := 0
  etsy_transaction_fees := 0
  etsy_processing_fees := 0
  total_etsy_fees := 0
  etsy_fee_rate := 0
  net_revenue := 0
  net_revenue_after_refunds := 0
  take_home_rate := 0
  discount_rate := 0
  actual_shipping_cost := 0
  shipping_profit := 0
  duty_amount := 0
  tax_amount := 0
  fedex_processing_fee := 0
  total_cost := 0
  total_cost_with_shipping := 0
  avg_cost_per_item := 0
  cost_per_order := 0
  contribution_margin := 0
  gross_profit := 0
  gross_margin := 0
  net_profit := 0
  net_margin := 0
  return_on_revenue := 0
  markup_ratio := 0
  total_ad_spend := 0
  total_orders := 0
  total_items := 0
  total_quantity_sold := 0
  unique_skus := 0
  average_order_value := 0
  items_per_order := 0
  revenue_per_item := 0
  profit_per_item := 0
  unique_customers := 0
  repeat_customers := 0
  customer_retention_rate := 0
  revenue_per_customer := 0
  orders_per_customer := 0
  profit_per_customer := 0
  shipped_orders := 0
  shipping_rate := 0
  gift_orders := 0
  gift_rate := 0
  total_refund_amount := 0
  total_refund_count := 0
  orders_with_refunds := 0
  etsy_fees_retained_on_refunds := 0
  refund_rate_by_order := 0
  refund_rate_by_value := 0
  order_refund_rate := 0
  cancelled_orders := 0
  cancellation_rate := 0
  completion_rate := 0
  total_inventory := 0
  active_variants := 0
  has_complete_cost_data := false
  cost_coverage_percent := 0
  cost_data_sources := zeroSources
  items_with_direct_cost := 0
  items_with_fallback_cost := 0
  items_missing_cost := 0
  listings_skipped_no_cost := 0
  listings_included := 0

/-- A transaction (line item) as read from an order's `transactions`
JSON: an empty `sku` models a falsy one and is skipped by both loops. -/
structure Txn where
  sku : PyStr
  quantity : ℤ
  price : ℚ
  listing_id : Option Int

/-- One order row after the `orders_dict` grouping step.  The creation
timestamp is represented by the `(year, month)` the code derives from it;
fields no claim touches (payment method, raw timestamps) are omitted. -/
structure Order where
  grand_total : ℚ
  shipping : ℚ
  tax : ℚ
  vat : ℚ
  discount : ℚ
  gift_wrap : ℚ
  item_count : ℤ
  buyer_id : Option Int
  is_shipped : Bool
  is_gift : Bool
  status : Option PyStr
  refund_amount : ℚ
  refund_count : ℤ
  year : Int
  month : Int
  country : Option PyStr
  transactions : List Txn

/-- `status in {'cancelled', 'canceled'}` (a `None` status is not
cancelled). -/
def isCancelled (o : Order) : Bool :=
  o.status = some (pstr ("cancelled")) || o.status = some (pstr ("canceled"))

/-- The completed orders of a batch. -/
def completedOrders (orders : List Order) : List Order :=
  orders.filter (fun o => !isCancelled o)

/-- Etsy fee configuration (CLI-injected rates). -/
structure FeeConfig where
  etsy_transaction_fee_rate : ℚ
  etsy_processing_fee_rate : ℚ
  etsy_processing_fee_fixed : ℚ

/-- The default fee configuration (6.5%, 3% + $0.25). -/
def defaultFees : FeeConfig := ⟨65/1000, 3/100, 1/4⟩

/-- Accumulator of the cost loop. -/
structure CostAcc where
  total_cost : ℚ
  qty_sold : ℤ
  qty_with_cost : ℤ
  sources : CostDataSources
  skus : List PyStr

/-- Bump the per-provenance quantity tally. -/
def bumpSources (s : CostDataSources) (p : Provenance) (q : ℤ) : CostDataSources :=
  match p with
  | .direct => { s with direct := s.direct + q }
  | .siblingSamePeriod => { s with sibling_same_period := s.sibling_same_period + q }
  | .siblingHistorical => { s with sibling_historical := s.sibling_historical + q }
  | .missing => { s with missing := s.missing + q }

/-- Is the SKU scope argument truthy (`if ... and sku:`)? -/
def skuCtxTruthy (skuCtx : Option PyStr) : Bool :=
  match skuCtx with
  | some s => !(s = [] : Bool)
  | none => false

/-- The `listing_id` used for the fallback of one transaction: the
scope's listing id when truthy, else the transaction's own `listing_id`
when computing a SKU-level report. -/
def txnListingId (listingIdCtx : Option Int) (skuCtx : Option PyStr)
    (t : Txn) : Option Int :=
  if (listingIdCtx = none ∨ listingIdCtx = some 0) ∧ skuCtxTruthy skuCtx then
    t.listing_id
  else listingIdCtx

/-- One transaction of the cost loop: resolve with fallback, tally the
provenance by quantity, accumulate cost only when it is positive, track
sold quantity and the normalized SKU when non-empty. -/
def costStep (idx : CostIndex) (childSkus : Int → List PyStr)
    (listingIdCtx : Option Int) (skuCtx : Option PyStr)
    (year month : Int) (acc : CostAcc) (t : Txn) : CostAcc :=
  if t.sku = [] then acc else
  let res := getCostWithFallback idx childSkus t.sku year month
    (txnListingId listingIdCtx skuCtx t)
  let withCost := res.1 > 0
  { total_cost := acc.total_cost + (if withCost then res.1 * t.quantity else 0)
    qty_sold := acc.qty_sold + t.quantity
    qty_with_cost := acc.qty_with_cost + (if withCost then t.quantity else 0)
    sources := bumpSources acc.sources res.2 t.quantity
    skus := acc.skus ++ (if normalizeSku t.sku = [] then [] else [normalizeSku t.sku]) }

/-- The cost loop over all completed orders and their transactions. -/
def costLoop (idx : CostIndex) (childSkus : Int → List PyStr)
    (listingIdCtx : Option Int) (skuCtx : Option PyStr)
    (completed : List Order) : CostAcc :=
  completed.foldl
    (fun acc o => o.transactions.foldl
      (costStep idx childSkus listingIdCtx skuCtx o.year o.month) acc)
    ⟨0, 0, 0, zeroSources, []⟩

/-- Accumulator of the shipping-cost loop. -/
structure ShipAcc where
  shipping : ℚ
  duty : ℚ
  tax : ℚ
  processing : ℚ

/-- Is the order's destination treated as US
(`order_country and order_country.upper() in ['US','USA','UNITED STATES']`)? -/
def isUsCountry (country : Option PyStr) : Bool :=
  match country with
  | some c =>
    !(c = [] : Bool) &&
      (pyUpper c = pstr ("US") || pyUpper c = pstr ("USA") ||
        pyUpper c = pstr ("UNITED STATES"))
  | none => false

/-- The country code handed to `get_zone_for_country`
(`order_country or 'US'`). -/
def zoneCountry (country : Option PyStr) : PyStr :=
  match country with
  | some c => if c = [] then pstr ("US") else c
  | none => pstr ("US")

/-- One transaction of the shipping loop: the US branch prices the flat
table per unit; the international branch prices the line's total weight
once against the zone matrix. -/
def shipStep (env : ShipEnv) (country : Option PyStr)
    (acc : ShipAcc) (t : Txn) : ShipAcc :=
  if t.sku = [] then acc else
  let q : ℚ := (t.quantity : ℚ)
  let weight := getDesiForSku env t.sku
  if isUsCountry country then
    let us := getUsShippingCosts env t.sku
    { shipping := acc.shipping + us.fedex_charge * q
      processing := acc.processing + us.processing_fee * q
      duty := acc.duty +
        (if us.duty_rate > 0 then t.price * us.duty_rate * q
         else if us.duty_amount > 0 then us.duty_amount * q else 0)
      tax := acc.tax +
        (if us.tax_rate > 0 then t.price * us.tax_rate * q
         else if us.tax_amount > 0 then us.tax_amount * q else 0) }
  else
    let zone := getZoneForCountry env (zoneCountry country)
    { acc with shipping := acc.shipping + getFedexPrice env (weight * q) zone }

/-- The shipping loop over all completed orders and their transactions. -/
def shipLoop (env : ShipEnv) (completed : List Order) : ShipAcc :=
  completed.foldl
    (fun acc o => o.transactions.foldl (shipStep env o.country) acc)
    ⟨0, 0, 0, 0⟩

/-- `_calculate_metrics_from_rows` for one entity and period.  The batch
is the grouped order list; `adSpend` models the datastore-backed
`get_ad_spend_for_period` / proportional-allocation result, and
`invTotal` / `invVariants` the inventory cache entry; `periodDays` is
`(end - start).days + 1`.  When the batch has no completed orders the
function returns `_empty_metrics` and never fails. -/
def calculateMetricsFromRows (cfg : FeeConfig) (idx : CostIndex)
    (childSkus : Int → List PyStr) (env : ShipEnv) (orders : List Order)
    (skuCtx : Option PyStr) (listingIdCtx : Option Int)
    (adSpend : ℚ) (invTotal invVariants : ℤ) (periodDays : ℤ) : Metrics :=
  let completed := completedOrders orders
  match completed with
  | [] => emptyMetrics
  | _ =>
    let gross_revenue := (completed.map (·.grand_total)).sum
    let total_shipping_charged := (completed.map (·.shipping)).sum
    let total_tax_collected := (completed.map (·.tax)).sum
    let total_vat_collected := (completed.map (·.vat)).sum
    let total_discounts_given := (completed.map (·.discount)).sum
    let total_gift_wrap_revenue := (completed.map (·.gift_wrap)).sum
    let taxable_amount := gross_revenue - total_tax_collected - total_vat_collected
    let etsy_transaction_fees := taxable_amount * cfg.etsy_transaction_fee_rate
    let etsy_processing_fees := taxable_amount * cfg.etsy_processing_fee_rate +
      (completed.length : ℚ) * cfg.etsy_processing_fee_fixed
    let total_etsy_fees := etsy_transaction_fees + etsy_processing_fees
    let net_revenue_from_sales := gross_revenue - total_etsy_fees -
      total_tax_collected - total_vat_collected
    let product_revenue := net_revenue_from_sales - total_shipping_charged -
      total_gift_wrap_revenue
    let c := costLoop idx childSkus listingIdCtx skuCtx completed
    let has_complete_cost_data :=
      decide (0 < c.qty_sold ∧ c.qty_with_cost = c.qty_sold)
    let cost_coverage_pct :=
      if 0 < c.qty_sold then (c.qty_with_cost : ℚ) / (c.qty_sold : ℚ) * 100 else 0
    let avg_cost_per_item :=
      if 0 < c.qty_with_cost then c.total_cost / (c.qty_with_cost : ℚ) else 0
    let sh := shipLoop env completed
    let shipping_profit := total_shipping_charged - sh.shipping
    let total_cost_with_shipping := c.total_cost + sh.shipping + sh.duty +
      sh.tax + sh.processing
    let gross_profit := net_revenue_from_sales - total_cost_with_shipping
    let contribution_margin := product_revenue - c.total_cost
    let total_orders : ℤ := (completed.length : ℤ)
    let total_items := (completed.map (·.item_count)).sum
    let customer_ids := completed.filterMap (·.buyer_id)
    let unique_customers : ℤ := (customer_ids.dedup.length : ℤ)
    let repeat_customers : ℤ := (customer_ids.length : ℤ) - unique_customers
    let shipped_count : ℤ := ((completed.filter (·.is_shipped)).length : ℤ)
    let gift_order_count : ℤ := ((completed.filter (·.is_gift)).length : ℤ)
    let total_refund_amount := (completed.map (·.refund_amount)).sum
    let total_refund_count := (completed.map (·.refund_count)).sum
    let orders_with_refunds : ℤ :=
      ((completed.filter (fun o => 0 < o.refund_count)).length : ℤ)
    let etsy_fees_retained_on_refunds :=
      total_refund_amount * cfg.etsy_transaction_fee_rate
    let net_profit := gross_profit - total_refund_amount -
      etsy_fees_retained_on_refunds - adSpend
    let net_revenue_after_refunds := net_revenue_from_sales -
      total_refund_amount - etsy_fees_retained_on_refunds
    let customer_retention_rate :=
      if 0 < unique_customers then (repeat_customers : ℚ) / (unique_customers : ℚ) else 0
    let cancelled : ℤ := (orders.length : ℤ) - total_orders
    { period_days := periodDays
      gross_revenue := gross_revenue
      total_revenue := gross_revenue
      product_revenue := product_revenue
      total_shipping_charged := total_shipping_charged
      total_tax_collected := total_tax_collected
      total_vat_collected := total_vat_collected
      total_gift_wrap_revenue := total_gift_wrap_revenue
      total_discounts_given := total_discounts_given
      etsy_transaction_fees := etsy_transaction_fees
      etsy_processing_fees := etsy_processing_fees
      total_etsy_fees := total_etsy_fees
      etsy_fee_rate :=
        if 0 < gross_revenue then total_etsy_fees / gross_revenue else 0
      net_revenue := net_revenue_from_sales
      net_revenue_after_refunds := net_revenue_after_refunds
      take_home_rate :=
        if 0 < gross_revenue then net_revenue_from_sales / gross_revenue else 0
      discount_rate :=
        if 0 < gross_revenue then total_discounts_given / gross_revenue else 0
      actual_shipping_cost := sh.shipping
      shipping_profit := shipping_profit
      duty_amount := sh.duty
      tax_amount := sh.tax
      fedex_processing_fee := sh.processing
      total_cost := c.total_cost
      total_cost_with_shipping := total_cost_with_shipping
      avg_cost_per_item := avg_cost_per_item
      cost_per_order :=
        if 0 < total_orders then total_cost_with_shipping / (total_orders : ℚ) else 0
      contribution_margin := contribution_margin
      gross_profit := gross_profit
      gross_margin :=
        if 0 < gross_revenue then gross_profit / gross_revenue else 0
      net_profit := net_profit
      net_margin :=
        if 0 < gross_revenue then net_profit / gross_revenue else 0
      return_on_revenue :=
        if 0 < gross_revenue then net_profit / gross_revenue else 0
      markup_ratio :=
        if 0 < total_cost_with_shipping then gross_profit / total_cost_with_shipping else 0
      total_ad_spend := adSpend
      total_orders := total_orders
      total_items := total_items
      total_quantity_sold := c.qty_sold
      unique_skus := (c.skus.dedup.length : ℤ)
      average_order_value :=
        if 0 < total_orders then gross_revenue / (total_orders : ℚ) else 0
      items_per_order :=
        if 0 < total_orders then (total_items : ℚ) / (total_orders : ℚ) else 0
      revenue_per_item :=
        if 0 < total_items then gross_revenue / (total_items : ℚ) else 0
      profit_per_item :=
        if 0 < total_items then gross_profit / (total_items : ℚ) else 0
      unique_customers := unique_customers
      repeat_customers := repeat_customers
      customer_retention_rate := customer_retention_rate
      revenue_per_customer :=
        if 0 < unique_customers then gross_revenue / (unique_customers : ℚ) else 0
      orders_per_customer :=
        if 0 < unique_customers then (total_orders : ℚ) / (unique_customers : ℚ) else 0
      profit_per_customer :=
        if 0 < unique_customers then gross_profit / (unique_customers : ℚ) else 0
      shipped_orders := shipped_count
      shipping_rate :=
        if 0 < total_orders then (shipped_count : ℚ) / (total_orders : ℚ) else 0
      gift_orders := gift_order_count
      gift_rate :=
        if 0 < total_orders then (gift_order_count : ℚ) / (total_orders : ℚ) else 0
      total_refund_amount := total_refund_amount
      total_refund_count := total_refund_count
      orders_with_refunds := orders_with_refunds
      etsy_fees_retained_on_refunds := etsy_fees_retained_on_refunds
      refund_rate_by_order :=
        if 0 < total_orders then (total_refund_count : ℚ) / (total_orders : ℚ) else 0
      refund_rate_by_value :=
        if 0 < gross_revenue then total_refund_amount / gross_revenue else 0
      order_refund_rate :=
        if 0 < total_orders then (orders_with_refunds : ℚ) / (total_orders : ℚ) else 0
      cancelled_orders := cancelled
      cancellation_rate :=
        if 0 < orders.length then (cancelled : ℚ) / (orders.length : ℚ) else 0
      completion_rate :=
        if 0 < orders.length then (total_orders : ℚ) / (orders.length : ℚ) else 0
      total_inventory := invTotal
      active_variants := invVariants
      has_complete_cost_data := has_complete_cost_data
      cost_coverage_percent := cost_coverage_pct
      cost_data_sources := c.sources
      items_with_direct_cost := c.sources.direct
      items_with_fallback_cost := c.sources.sibling_same_period + c.sources.sibling_historical
      items_missing_cost := c.sources.missing
      listings_skipped_no_cost := 0
      listings_included := 0 }

/-!
## Hierarchical aggregation
(`_sum_metrics`, `_aggregate_from_skus`, `_aggregate_from_listings`)
-/

/-- `_sum_metrics(m1, m2)`: start from a copy of `m1`, sum the additive
fields, merge the cost-source tallies, recompute cost coverage, and
recompute the guarded ratio blocks from the summed numerators and
denominators.  A field the source does not assign — such as
`shipping_rate` or `gift_rate` — keeps `m1`'s value through the copy. -/
def sumMetrics (m1 m2 : Metrics) : Metrics :=
  let sources : CostDataSources :=
    ⟨m1.cost_data_sources.direct + m2.cost_data_sources.direct,
     m1.cost_data_sources.sibling_same_period + m2.cost_data_sources.sibling_same_period,
     m1.cost_data_sources.sibling_historical + m2.cost_data_sources.sibling_historical,
     m1.cost_data_sources.missing + m2.cost_data_sources.missing⟩
  let items_direct := m1.items_with_direct_cost + m2.items_with_direct_cost
  let items_fallback := m1.items_with_fallback_cost + m2.items_with_fallback_cost
  let items_missing := m1.items_missing_cost + m2.items_missing_cost
  let counted := items_direct + items_fallback + items_missing
  let gross_sum := m1.gross_revenue + m2.gross_revenue
  let total_rev := m1.total_revenue + m2.total_revenue
  -- `gross_revenue = r.get('gross_revenue', 0) or r.get('total_revenue', 0)`
  let g := if gross_sum = 0 then total_rev else gross_sum
  let total_orders := m1.total_orders + m2.total_orders
  let total_items := m1.total_items + m2.total_items
  let unique_customers := m1.unique_customers + m2.unique_customers
  let total_cost := m1.total_cost + m2.total_cost
  let tcws := m1.total_cost_with_shipping + m2.total_cost_with_shipping
  let gross_profit := m1.gross_profit + m2.gross_profit
  let net_profit := m1.net_profit + m2.net_profit
  let net_revenue := m1.net_revenue + m2.net_revenue
  let total_etsy_fees := m1.total_etsy_fees + m2.total_etsy_fees
  let total_discounts := m1.total_discounts_given + m2.total_discounts_given
  let total_refund_amount := m1.total_refund_amount + m2.total_refund_amount
  let total_refund_count := m1.total_refund_count + m2.total_refund_count
  let orders_with_refunds := m1.orders_with_refunds + m2.orders_with_refunds
  { m1 with
    gross_revenue := gross_sum
    total_revenue := total_rev
    product_revenue := m1.product_revenue + m2.product_revenue
    total_shipping_charged := m1.total_shipping_charged + m2.total_shipping_charged
    total_tax_collected := m1.total_tax_collected + m2.total_tax_collected
    total_vat_collected := m1.total_vat_collected + m2.total_vat_collected
    total_gift_wrap_revenue := m1.total_gift_wrap_revenue + m2.total_gift_wrap_revenue
    total_discounts_given := total_discounts
    etsy_transaction_fees := m1.etsy_transaction_fees + m2.etsy_transaction_fees
    etsy_processing_fees := m1.etsy_processing_fees + m2.etsy_processing_fees
    total_etsy_fees := total_etsy_fees
    net_revenue := net_revenue
    net_revenue_after_refunds := m1.net_revenue_after_refunds + m2.net_revenue_after_refunds
    actual_shipping_cost := m1.actual_shipping_cost + m2.actual_shipping_cost
    shipping_profit := m1.shipping_profit + m2.shipping_profit
    duty_amount := m1.duty_amount + m2.duty_amount
    tax_amount := m1.tax_amount + m2.tax_amount
    fedex_processing_fee := m1.fedex_processing_fee + m2.fedex_processing_fee
    total_cost := total_cost
    total_cost_with_shipping := tcws
    contribution_margin := m1.contribution_margin + m2.contribution_margin
    gross_profit := gross_profit
    net_profit := net_profit
    total_orders := total_orders
    total_items := total_items
    total_quantity_sold := m1.total_quantity_sold + m2.total_quantity_sold
    shipped_orders := m1.shipped_orders + m2.shipped_orders
    gift_orders := m1.gift_orders + m2.gift_orders
    total_refund_amount := total_refund_amount
    total_refund_count := total_refund_count
    orders_with_refunds := orders_with_refunds
    etsy_fees_retained_on_refunds :=
      m1.etsy_fees_retained_on_refunds + m2.etsy_fees_retained_on_refunds
    cancelled_orders := m1.cancelled_orders + m2.cancelled_orders
    unique_customers := unique_customers
    repeat_customers := m1.repeat_customers + m2.repeat_customers
    total_inventory := m1.total_inventory + m2.total_inventory
    active_variants := m1.active_variants + m2.active_variants
    items_with_direct_cost := items_direct
    items_with_fallback_cost := items_fallback
    items_missing_cost := items_missing
    total_ad_spend := m1.total_ad_spend + m2.total_ad_spend
    cost_data_sources := sources
    cost_coverage_percent :=
      if 0 < counted then
        ((items_direct + items_fallback : ℤ) : ℚ) / (counted : ℚ) * 100
      else 0
    has_complete_cost_data :=
      if 0 < counted then decide (items_missing = 0) else false
    discount_rate := if 0 < g then total_discounts / g else m1.discount_rate
    gross_margin := if 0 < g then gross_profit / g else m1.gross_margin
    net_margin := if 0 < g then net_profit / g else m1.net_margin
    return_on_revenue := if 0 < g then net_profit / g else m1.return_on_revenue
    etsy_fee_rate := if 0 < g then total_etsy_fees / g else m1.etsy_fee_rate
    take_home_rate := if 0 < g then net_revenue / g else m1.take_home_rate
    refund_rate_by_value :=
      if 0 < g then total_refund_amount / g else m1.refund_rate_by_value
    markup_ratio :=
      if 0 < tcws then gross_profit / tcws
      else if 0 < total_cost then gross_profit / total_cost
      else m1.markup_ratio
    average_order_value :=
      if 0 < total_orders then g / (total_orders : ℚ) else m1.average_order_value
    items_per_order :=
      if 0 < total_orders then (total_items : ℚ) / (total_orders : ℚ)
      else m1.items_per_order
    cost_per_order :=
      if 0 < total_orders then
        (if 0 < tcws then tcws / (total_orders : ℚ)
         else total_cost / (total_orders : ℚ))
      else m1.cost_per_order
    refund_rate_by_order :=
      if 0 < total_orders then (total_refund_count : ℚ) / (total_orders : ℚ)
      else m1.refund_rate_by_order
    order_refund_rate :=
      if 0 < total_orders then (orders_with_refunds : ℚ) / (total_orders : ℚ)
      else m1.order_refund_rate
    revenue_per_item :=
      if 0 < total_items then g / (total_items : ℚ) else m1.revenue_per_item
    profit_per_item :=
      if 0 < total_items then gross_profit / (total_items : ℚ)
      else m1.profit_per_item
    avg_cost_per_item :=
      if 0 < total_items then total_cost / (total_items : ℚ)
      else m1.avg_cost_per_item
    revenue_per_customer :=
      if 0 < unique_customers then g / (unique_customers : ℚ)
      else m1.revenue_per_customer
    orders_per_customer :=
      if 0 < unique_customers then (total_orders : ℚ) / (unique_customers : ℚ)
      else m1.orders_per_customer
    profit_per_customer :=
      if 0 < unique_customers then gross_profit / (unique_customers : ℚ)
      else m1.profit_per_customer
    period_days := m1.period_days }

/-- The `agg = child.copy() if agg is None else _sum_metrics(agg, child)`
folding pattern shared by both aggregators. -/
def foldSum (children : List Metrics) : Option Metrics :=
  children.foldl
    (fun acc m =>
      match acc with
      | none => some m
      | some a => some (sumMetrics a m))
    none

/-- `_aggregate_from_skus`: fold every located child SKU document into
the aggregate — no child is filtered out.  (The SKU-store lookup that
locates a child by raw or normalized key, and the final re-stamping of
`period_start`/`period_end`, sit outside the model.) -/
def aggregateFromSkus (found : List Metrics) : Option Metrics :=
  foldSum found

/-- `_aggregate_from_listings`: one entry per requested listing id,
`none` when that listing has no document for the period.  A located
child without complete cost data is skipped and tallied; the skip count
and `len(listing_ids) - skipped` are recorded on the result. -/
def aggregateFromListings (docs : List (Option Metrics)) : Option Metrics :=
  let step : Option Metrics × ℤ → Option Metrics → Option Metrics × ℤ :=
    fun acc d =>
      match d with
      | none => acc
      | some m =>
        if m.has_complete_cost_data then
          (match acc.1 with
           | none => some m
           | some a => some (sumMetrics a m), acc.2)
        else (acc.1, acc.2 + 1)
  let r := docs.foldl step (none, 0)
  match r.1 with
  | none => none
  | some a =>
    some { a with
      listings_skipped_no_cost := r.2
      listings_included := (docs.length : ℤ) - r.2 }

/-- The additive fields of a document as one rational vector, in the
order of `_sum_metrics`'s additive-field list (integer counters cast to
ℚ; the four merged source tallies appended). -/
def additiveVec (m : Metrics) : List ℚ :=
  [m.gross_revenue, m.total_revenue, m.product_revenue,
   m.total_shipping_charged, m.total_tax_collected, m.total_vat_collected,
   m.total_gift_wrap_revenue, m.total_discounts_given,
   m.etsy_transaction_fees, m.etsy_processing_fees, m.total_etsy_fees,
   m.net_revenue, m.net_revenue_after_refunds, m.actual_shipping_cost,
   m.shipping_profit, m.duty_amount, m.tax_amount, m.fedex_processing_fee,
   m.total_cost, m.total_cost_with_shipping, m.contribution_margin,
   m.gross_profit, m.net_profit, (m.total_orders : ℚ), (m.total_items : ℚ),
   (m.total_quantity_sold : ℚ), (m.shipped_orders : ℚ), (m.gift_orders : ℚ),
   m.total_refund_amount, (m.total_refund_count : ℚ),
   (m.orders_with_refunds : ℚ), m.etsy_fees_retained_on_refunds,
   (m.cancelled_orders : ℚ), (m.unique_customers : ℚ),
   (m.repeat_customers : ℚ), (m.total_inventory : ℚ),
   (m.active_variants : ℚ), (m.items_with_direct_cost : ℚ),
   (m.items_with_fallback_cost : ℚ), (m.items_missing_cost : ℚ),
   m.total_ad_spend, (m.cost_data_sources.direct : ℚ),
   (m.cost_data_sources.sibling_same_period : ℚ),
   (m.cost_data_sources.sibling_historical : ℚ),
   (m.cost_data_sources.missing : ℚ)]

/-!
## Concrete instances used to evaluate the model
-/

/-- A shipping environment with every reference table empty. -/
def emptyShipEnv : ShipEnv where
  skuToOttokod := fun _ => none
  skuToOttokodNorm := fun _ => none
  desiByOttokod := fun _ => none
  desiEmpty := true
  costCsvRows := []
  bulkShip := fun _ => none
  bulkShipNorm := fun _ => none
  usSkuRows := none
  usOttokodRows := none
  zoneRows := []
  pricingRows := []

/-- An order with the given totals and no line items, placed 2025-01. -/
def plainOrder (grand tax : ℚ) : Order where
  grand_total := grand
  shipping := 0
  vat := 0
  tax := tax
  discount := 0
  gift_wrap := 0
  item_count := 0
  buyer_id := none
  is_shipped := false
  is_gift := false
  status := none
  refund_amount := 0
  refund_count := 0
  year := 2025
  month := 1
  country := none
  transactions := []

/-- A cancelled order with zero totals. -/
def cancelledOrder : Order :=
  { plainOrder 0 0 with status := some (pstr ("cancelled")) }

/-- The spec's fee-example batch: three completed orders totalling
$300 gross with $20 tax collected. -/
def feeExampleOrders : List Order :=
  [plainOrder 100 20, plainOrder 100 0, plainOrder 100 0]

/-- A document with one order, shipped, `shipping_rate` 1. -/
def shippedDoc : Metrics :=
  { emptyMetrics with total_orders := 1, shipped_orders := 1, shipping_rate := 1 }

/-- A document with one order, not shipped, `shipping_rate` 0. -/
def unshippedDoc : Metrics :=
  { emptyMetrics with total_orders := 1, shipped_orders := 0, shipping_rate := 0 }

/-- A child document whose two sold units both carry a direct cost. -/
def completeChildDoc : Metrics :=
  { emptyMetrics with
    gross_revenue := 50
    total_revenue := 50
    total_cost := 10
    total_quantity_sold := 2
    items_with_direct_cost := 2
    cost_coverage_percent := 100
    has_complete_cost_data := true
    cost_data_sources := ⟨2, 0, 0, 0⟩ }

/-- A child document with one covered unit and one missing-cost unit. -/
def incompleteChildDoc : Metrics :=
  { emptyMetrics with
    gross_revenue := 30
    total_revenue := 30
    total_cost := 4
    total_quantity_sold := 2
    items_with_direct_cost := 1
    items_missing_cost := 1
    cost_coverage_percent := 50
    has_complete_cost_data := false
    cost_data_sources := ⟨1, 0, 0, 1⟩ }

/-- A cost table holding only a 2024-05 cost of 3 for SKU `widget`. -/
def staleCostIndex : CostIndex := [⟨pstr ("widget"), [(2024, 5, 3)]⟩]

/-- The spec example's cost table: no row for `OT-Widget`, and a 2025-03
cost of $4.00 on sibling `OT-Widget-Red` (stored under its normalized
key). -/
def widgetCostIndex : CostIndex := [⟨pstr ("widget-red"), [(2025, 3, 4)]⟩]

/-- The spec example's listing: `OT-Widget` and `OT-Widget-Red` are the
children of listing 1. -/
def widgetChildSkus : Int → List PyStr :=
  fun lid => if lid = 1 then [pstr ("OT-Widget"), pstr ("OT-Widget-Red")] else []

/-- A one-tier, one-zone FedEx price matrix (tiers 1 kg and 2 kg). -/
def toyPricingEnv : ShipEnv :=
  { emptyShipEnv with
    pricingRows :=
      [⟨1, fun z => if z = 2 then some 7 else none⟩,
       ⟨2, fun z => if z = 2 then some 11 else none⟩] }

/-- A document with every aggregation denominator positive, used to
evaluate the aggregation theorems on concrete data. -/
def denseDoc : Metrics :=
  { emptyMetrics with
    gross_revenue := 10
    total_revenue := 10
    total_discounts_given := 1
    gross_profit := 4
    net_profit := 3
    total_etsy_fees := 1
    net_revenue := 9
    total_refund_amount := 1
    total_cost := 2
    total_cost_with_shipping := 3
    total_orders := 1
    total_items := 2
    unique_customers := 1
    total_refund_count := 1
    orders_with_refunds := 1
    items_with_direct_cost := 1
    items_missing_cost := 1
    cost_data_sources := ⟨1, 0, 0, 1⟩
    cost_coverage_percent := 50
    has_complete_cost_data := false }

/-- Componentwise sum of the children's additive vectors (the flat sums
an aggregate's additive fields should carry). -/
def vecSum (children : List Metrics) : List ℚ :=
  children.foldl (fun v m => List.zipWith (· + ·) v (additiveVec m))
    (additiveVec emptyMetrics)

/-- The cost-quality fields of a document are consistent with its own
per-tier quantity tallies — coverage is the with-cost share of the
counted quantity and the completeness flag means no missing-cost
quantity.  Both the leaf calculator and `_sum_metrics` leave documents
in this state. -/
def CostCoherent (m : Metrics) : Prop :=
  m.cost_coverage_percent =
    (if 0 < m.items_with_direct_cost + m.items_with_fallback_cost +
        m.items_missing_cost then
      ((m.items_with_direct_cost + m.items_with_fallback_cost : ℤ) : ℚ) /
        ((m.items_with_direct_cost + m.items_with_fallback_cost +
          m.items_missing_cost : ℤ) : ℚ) * 100
    else 0) ∧
  m.has_complete_cost_data =
    (if 0 < m.items_with_direct_cost + m.items_with_fallback_cost +
        m.items_missing_cost then
      decide (m.items_missing_cost = 0)
    else false)

/-- `resolveShippingCost` for one line item as the claims describe it:
US destinations price the flat per-unit table (rate-based duty/tax on
the actual unit price preferred over flat amounts), other destinations
price the line's total weight once against the zone matrix.  Stated from
the claim wording, to be compared with the source-derived shipping
loop. -/
def resolveShippingSpec (env : ShipEnv) (country : Option PyStr)
    (t : Txn) : ShipAcc :=
  if t.sku = [] then ⟨0, 0, 0, 0⟩ else
  if isUsCountry country then
    let us := getUsShippingCosts env t.sku
    ⟨us.fedex_charge * (t.quantity : ℚ),
     (if us.duty_rate > 0 then t.price * us.duty_rate * (t.quantity : ℚ)
      else if us.duty_amount > 0 then us.duty_amount * (t.quantity : ℚ)
      else 0),
     (if us.tax_rate > 0 then t.price * us.tax_rate * (t.quantity : ℚ)
      else if us.tax_amount > 0 then us.tax_amount * (t.quantity : ℚ)
      else 0),
     us.processing_fee * (t.quantity : ℚ)⟩
  else
    ⟨getFedexPrice env (getDesiForSku env t.sku * (t.quantity : ℚ))
      (getZoneForCountry env (zoneCountry country)), 0, 0, 0⟩

/-- The tail of `get_fedex_price` once a tier is chosen: read the tier's
zone column, 0 on any miss. -/
def priceAtTier (env : ShipEnv) (tier : ℚ) (zone : Int) : ℚ :=
  match env.pricingRows.find? (fun r => r.weight = tier) with
  | none => 0
  | some r => (r.zonePrice zone).getD 0

/-!
## Theorems

### The identifier normalizer (C8)
-/

lemma upChar_lowChar (n : Nat) (h : n < 128) : upChar (lowChar n) = upChar n := by
  unfold upChar lowChar; split_ifs <;> omega

lemma lowChar_lowChar (n : Nat) : lowChar (lowChar n) = lowChar n := by
  unfold lowChar; split_ifs <;> omega

lemma isWs_eq_false (n : Nat)
    (h : ¬(9 ≤ n ∧ n ≤ 13) ∧ ¬(28 ≤ n ∧ n ≤ 31) ∧ n ≠ 32 ∧ n ≠ 133 ∧
      n ≠ 160 ∧ n ≠ 5760 ∧ ¬(8192 ≤ n ∧ n ≤ 8202) ∧ n ≠ 8232 ∧ n ≠ 8233 ∧
      n ≠ 8239 ∧ n ≠ 8287 ∧ n ≠ 12288) :
    isWs n = false := by
  simp only [isWs, Bool.or_eq_false_iff, decide_eq_false_iff_not]
  omega

lemma isWs_lowChar (n : Nat) : isWs (lowChar n) = isWs n := by
  unfold lowChar; split_ifs with h1 h2
  · rw [isWs_eq_false (n + 32) (by omega), isWs_eq_false n (by omega)]
  · subst h2; decide
  · rfl

lemma pyUpper_pyLower {s : PyStr} (h : isAscii s) :
    pyUpper (pyLower s) = pyUpper s := by
  unfold pyUpper pyLower
  rw [List.map_map]
  apply List.map_congr_left
  intro a ha
  simp only [Function.comp_apply]
  exact upChar_lowChar a (h a ha)

lemma pyLower_pyLower (s : PyStr) : pyLower (pyLower s) = pyLower s := by
  simp [pyLower, List.map_map, Function.comp_def, lowChar_lowChar]

lemma isPrefixOf_length {p l : List Nat} (h : p.isPrefixOf l = true) :
    p.length ≤ l.length := by
  induction p generalizing l with
  | nil => simp
  | cons a t ih =>
    cases l with
    | nil => simp [List.isPrefixOf] at h
    | cons b m =>
      simp only [List.isPrefixOf, Bool.and_eq_true] at h
      simpa using ih h.2

lemma prefixesFacts : ∀ p ∈ prefixesToRemove, p ≠ [] ∧ noWs p := by decide

lemma prefixesPairwise : ∀ p ∈ prefixesToRemove, ∀ q ∈ prefixesToRemove,
    p ≠ q → p.isPrefixOf q = false ∧ q.isPrefixOf p = false := by decide

lemma pyUpperPrefixes : ∀ p ∈ prefixesToRemove, pyUpper p = p := by decide

lemma stripOnce_nil : stripOnce ([] : PyStr) = none := by decide

lemma stripOnce_some {s t : PyStr} (h : stripOnce s = some t) :
    ∃ p, p ∈ prefixesToRemove ∧ p.isPrefixOf (pyUpper s) = true ∧
      t = s.drop p.length := by
  obtain ⟨p, hp, hf⟩ := List.exists_of_findSome?_eq_some h
  by_cases hpre : p.isPrefixOf (pyUpper s) = true
  · refine ⟨p, hp, hpre, ?_⟩
    rw [if_pos hpre] at hf
    exact (Option.some.injEq _ _ ▸ hf).symm
  · rw [if_neg hpre] at hf
    exact absurd hf (by simp)

lemma stripOnce_some_length {s t : PyStr} (h : stripOnce s = some t) :
    t.length < s.length := by
  obtain ⟨p, hp, hpre, rfl⟩ := stripOnce_some h
  have h1 := isPrefixOf_length hpre
  have h2 : 0 < p.length :=
    List.length_pos.mpr (prefixesFacts p hp).1
  have h3 : (pyUpper s).length = s.length := by simp [pyUpper]
  rw [List.length_drop]
  omega

lemma stripOnce_none_lower {s : PyStr} (ha : isAscii s) (h : stripOnce s = none) :
    stripOnce (pyLower s) = none := by
  unfold stripOnce at h ⊢
  rw [List.findSome?_eq_none_iff] at h ⊢
  intro p hp
  have hx := h p hp
  by_cases hc : p.isPrefixOf (pyUpper s) = true
  · rw [if_pos hc] at hx
    exact absurd hx (by simp)
  · rw [pyUpper_pyLower ha]
    rw [if_neg hc]

lemma stripLoopFuel_nil (f : Nat) : stripLoopFuel f [] = [] := by
  cases f with
  | zero => rfl
  | succ f => simp [stripLoopFuel, stripOnce_nil]

lemma stripLoopFuel_congr :
    ∀ f g (s : PyStr), s.length ≤ f → s.length ≤ g →
      stripLoopFuel f s = stripLoopFuel g s := by
  intro f
  induction f with
  | zero =>
    intro g s hf _
    have hs : s = [] := List.eq_nil_of_length_eq_zero (Nat.le_zero.mp hf)
    subst hs
    rw [stripLoopFuel_nil, stripLoopFuel_nil]
  | succ f ih =>
    intro g s hf hg
    cases g with
    | zero =>
      have hs : s = [] := List.eq_nil_of_length_eq_zero (Nat.le_zero.mp hg)
      subst hs
      rw [stripLoopFuel_nil, stripLoopFuel_nil]
    | succ g =>
      cases hso : stripOnce s with
      | none => simp [stripLoopFuel, hso]
      | some t =>
        have hlt := stripOnce_some_length hso
        simp only [stripLoopFuel, hso]
        exact ih g t (by omega) (by omega)

lemma stripLoop_no_more (s : PyStr) : stripOnce (stripLoop s) = none := by
  suffices h : ∀ f (u : PyStr), u.length ≤ f → stripOnce (stripLoopFuel f u) = none by
    exact h s.length s le_rfl
  intro f
  induction f with
  | zero =>
    intro u h
    have hu : u = [] := List.eq_nil_of_length_eq_zero (Nat.le_zero.mp h)
    subst hu
    rw [stripLoopFuel_nil]
    exact stripOnce_nil
  | succ f ih =>
    intro u h
    cases hso : stripOnce u with
    | none => simpa [stripLoopFuel, hso] using hso
    | some t =>
      have hlt := stripOnce_some_length hso
      simp only [stripLoopFuel, hso]
      exact ih t (by omega)

lemma stripLoop_of_none {s : PyStr} (h : stripOnce s = none) : stripLoop s = s := by
  unfold stripLoop
  cases hl : s.length with
  | zero => rfl
  | succ n => simp [stripLoopFuel, h]

lemma dropWhile_of_noWs {s : PyStr} (h : noWs s) : s.dropWhile isWs = s := by
  cases s with
  | nil => rfl
  | cons a t =>
    have := h a (by simp)
    simp [List.dropWhile_cons, this]

lemma noWs_reverse {s : PyStr} (h : noWs s) : noWs s.reverse :=
  fun c hc => h c (List.mem_reverse.mp hc)

lemma pyStrip_of_noWs {s : PyStr} (h : noWs s) : pyStrip s = s := by
  unfold pyStrip
  rw [dropWhile_of_noWs h, dropWhile_of_noWs (noWs_reverse h), List.reverse_reverse]

lemma noWs_drop {s : PyStr} (h : noWs s) (n : Nat) : noWs (s.drop n) :=
  fun c hc => h c (List.mem_of_mem_drop hc)

lemma isAscii_drop {s : PyStr} (h : isAscii s) (n : Nat) : isAscii (s.drop n) :=
  fun c hc => h c (List.mem_of_mem_drop hc)

lemma isAscii_stripLoop {s : PyStr} (h : isAscii s) : isAscii (stripLoop s) := by
  suffices hh : ∀ f (u : PyStr), isAscii u → isAscii (stripLoopFuel f u) from
    hh s.length s h
  intro f
  induction f with
  | zero => intro u hu; exact hu
  | succ f ih =>
    intro u hu
    cases hso : stripOnce u with
    | none => simpa [stripLoopFuel, hso] using hu
    | some t =>
      obtain ⟨p, _, _, rfl⟩ := stripOnce_some hso
      simp only [stripLoopFuel, hso]
      exact ih _ (isAscii_drop hu _)

lemma noWs_pyLower {s : PyStr} (h : noWs s) : noWs (pyLower s) := by
  intro c hc
  obtain ⟨a, ha, rfl⟩ := List.mem_map.mp hc
  rw [isWs_lowChar]
  exact h a ha

lemma noWs_stripLoop {s : PyStr} (h : noWs s) : noWs (stripLoop s) := by
  suffices hh : ∀ f (u : PyStr), noWs u → noWs (stripLoopFuel f u) from
    hh s.length s h
  intro f
  induction f with
  | zero => intro u hu; exact hu
  | succ f ih =>
    intro u hu
    cases hso : stripOnce u with
    | none => simpa [stripLoopFuel, hso] using hu
    | some t =>
      obtain ⟨p, _, _, rfl⟩ := stripOnce_some hso
      simp only [stripLoopFuel, hso]
      exact ih _ (noWs_drop hu _)

lemma normalizeSku_noWs {s : PyStr} (h : noWs s) : noWs (normalizeSku s) := by
  unfold normalizeSku
  split
  · simpa
  · rw [pyStrip_of_noWs h]
    exact noWs_pyLower (noWs_stripLoop h)

lemma normalizeSku_eq {u : PyStr} (hu : u ≠ []) :
    normalizeSku u = pyLower (stripLoop (pyStrip u)) := by
  unfold normalizeSku
  rw [if_neg hu]

lemma normalizeSku_idem {s : PyStr} (h : noWs s) (ha : isAscii s) :
    normalizeSku (normalizeSku s) = normalizeSku s := by
  by_cases hs : s = []
  · subst hs; simp [normalizeSku]
  · have ht : normalizeSku s = pyLower (stripLoop s) := by
      rw [normalizeSku_eq hs, pyStrip_of_noWs h]
    by_cases h0 : normalizeSku s = []
    · rw [h0]; simp [normalizeSku]
    · have hnws : noWs (normalizeSku s) := normalizeSku_noWs h
      rw [normalizeSku_eq h0, pyStrip_of_noWs hnws]
      have h2 : stripOnce (normalizeSku s) = none := by
        rw [ht]
        exact stripOnce_none_lower (isAscii_stripLoop ha) (stripLoop_no_more s)
      rw [stripLoop_of_none h2, ht, pyLower_pyLower]

lemma findSome?_eq_of_unique {α β : Type} {f : α → Option β} {p : α} :
    ∀ (l : List α), p ∈ l → (∀ q ∈ l, q ≠ p → f q = none) →
      l.findSome? f = f p := by
  intro l
  induction l with
  | nil => intro hp _; cases hp
  | cons a t ih =>
    intro hp h
    by_cases ha : a = p
    · subst ha
      cases hf : f a with
      | some b => simp [List.findSome?_cons, hf]
      | none =>
        simp only [List.findSome?_cons, hf]
        rw [List.findSome?_eq_none_iff]
        intro q hq
        by_cases hqp : q = a
        · subst hqp; exact hf
        · exact h q (by simp [hq]) hqp
    · have hpt : p ∈ t := by
        rcases List.mem_cons.mp hp with h1 | h1
        · exact absurd h1.symm ha
        · exact h1
      have hfa : f a = none := h a (by simp) ha
      simp only [List.findSome?_cons, hfa]
      exact ih hpt (fun q hq hqp => h q (by simp [hq]) hqp)

lemma isPrefixOf_append_self (p t : List Nat) : p.isPrefixOf (p ++ t) = true := by
  induction p with
  | nil => simp [List.isPrefixOf]
  | cons a s ih => simpa [List.isPrefixOf] using ih

lemma isPrefixOf_append_cases {q p x : List Nat}
    (h : q.isPrefixOf (p ++ x) = true) :
    q.isPrefixOf p = true ∨ p.isPrefixOf q = true := by
  induction q generalizing p with
  | nil => left; simp [List.isPrefixOf]
  | cons a t ih =>
    cases p with
    | nil => right; simp [List.isPrefixOf]
    | cons b m =>
      simp only [List.cons_append, List.isPrefixOf, Bool.and_eq_true] at h ⊢
      have hab : a = b := by simpa using h.1
      subst hab
      rcases ih (p := m) h.2 with h1 | h1
      · left; exact ⟨by simp, h1⟩
      · right; exact ⟨by simp, h1⟩

lemma stripOnce_append {p : PyStr} (s : PyStr) (hp : p ∈ prefixesToRemove) :
    stripOnce (p ++ s) = some s := by
  have hU : pyUpper (p ++ s) = p ++ pyUpper s := by
    unfold pyUpper
    rw [List.map_append]
    rw [show List.map upChar p = p from pyUpperPrefixes p hp]
  have hstep : stripOnce (p ++ s) =
      (if p.isPrefixOf (pyUpper (p ++ s)) then some ((p ++ s).drop p.length)
       else none) := by
    unfold stripOnce
    apply findSome?_eq_of_unique prefixesToRemove hp
    intro q hq hqp
    rw [if_neg]
    intro hcontra
    rw [hU] at hcontra
    rcases isPrefixOf_append_cases hcontra with h1 | h1
    · have h2 := (prefixesPairwise q hq p hp hqp).1
      rw [h1] at h2
      exact absurd h2 (by simp)
    · have h2 := (prefixesPairwise q hq p hp hqp).2
      rw [h1] at h2
      exact absurd h2 (by simp)
  rw [hstep, hU, if_pos (isPrefixOf_append_self p (pyUpper s)), List.drop_left]

lemma noWs_append {p s : PyStr} (hp : noWs p) (hs : noWs s) : noWs (p ++ s) := by
  intro c hc
  rcases List.mem_append.mp hc with h | h
  · exact hp c h
  · exact hs c h

lemma normalizeSku_append {p s : PyStr} (hp : p ∈ prefixesToRemove)
    (hs : noWs s) : normalizeSku (p ++ s) = normalizeSku s := by
  have hpw : noWs p := (prefixesFacts p hp).2
  have hpe : p ≠ [] := (prefixesFacts p hp).1
  have hws : noWs (p ++ s) := noWs_append hpw hs
  have hne : p ++ s ≠ [] := by
    intro hx
    exact hpe (List.append_eq_nil.mp hx).1
  have hstrip : stripLoop (p ++ s) = stripLoop s := by
    unfold stripLoop
    cases hl : (p ++ s).length with
    | zero => exact absurd (List.eq_nil_of_length_eq_zero hl) hne
    | succ n =>
      rw [show stripLoopFuel (n + 1) (p ++ s) = stripLoopFuel n s by
        simp [stripLoopFuel, stripOnce_append s hp]]
      apply stripLoopFuel_congr
      · have : (p ++ s).length = p.length + s.length := by simp
        have hp1 : 0 < p.length := List.length_pos.mpr hpe
        omega
      · exact le_rfl
  by_cases h0 : s = []
  · subst h0
    simp only [normalizeSku, List.append_nil] at hstrip ⊢
    rw [if_neg (by simpa using hpe), pyStrip_of_noWs (by simpa using hws)]
    rw [show stripLoop p = stripLoop ([] : PyStr) by simpa using hstrip]
    simp [stripLoop_of_none stripOnce_nil, pyLower]
  · unfold normalizeSku
    rw [if_neg hne, if_neg h0, pyStrip_of_noWs hws, pyStrip_of_noWs hs, hstrip]

/-- C8: on strings free of `str.strip` whitespace the normalizer strips
a known prefix invisibly — `normalize (p ++ s) = normalize s` for every
known prefix `p` — and on those that are moreover ASCII (where the
modelled case conversions coincide with Python's full case table) it is
idempotent.  (The unrestricted claim fails — see the counterexample —
because stripping a prefix can expose leading whitespace that only a
second pass's `strip()` would remove, and because `lower()` can move a
non-ASCII code point such as U+212A KELVIN SIGN into a prefix letter.) -/
theorem normalizer_idempotent_and_prefix_invariant (s p : PyStr)
    (hp : p ∈ prefixesToRemove) (hs : noWs s) :
    (isAscii s → normalizeSku (normalizeSku s) = normalizeSku s) ∧
    normalizeSku (p ++ s) = normalizeSku s :=
  ⟨fun ha => normalizeSku_idem hs ha, normalizeSku_append hp hs⟩

/-- C8 witness: a concrete whitespace-free ASCII SKU and the `OT-` prefix. -/
theorem normalizer_idempotent_witness :
    normalizeSku (normalizeSku (pstr ("Widget-1"))) = normalizeSku (pstr ("Widget-1")) ∧
    normalizeSku (pstr ("OT-") ++ pstr ("Widget-1")) = normalizeSku (pstr ("Widget-1")) := by
  have h := normalizer_idempotent_and_prefix_invariant (pstr ("Widget-1")) (pstr ("OT-"))
    (by decide) (by decide)
  exact ⟨h.1 (by decide), h.2⟩

/-- C8 counterexample: `"OT- x"` normalizes to `" x"`, which normalizes
again to `"x"` — the function is not idempotent on every string, and the
two raw SKUs `"OT- x"` and `" x"`, which differ only by the known prefix
`OT-`, normalize to different keys.  Whitespace-freedom alone is not
enough for idempotence either: `"U\u212A-abc"` (U+212A KELVIN SIGN)
carries no whitespace, yet its lower-casing `"uk-abc"` starts with the
`UK-` prefix, so a second pass strips it.  And for control whitespace,
`"OT-\x0Bx"` against `"\x0Bx"` (vertical tab) breaks prefix-invariance,
which is why `noWs` must reject all of `str.strip`'s whitespace. -/
theorem normalizer_not_idempotent :
    (normalizeSku (normalizeSku (pstr ("OT- x"))) ≠ normalizeSku (pstr ("OT- x")) ∧
      normalizeSku (pstr ("OT-") ++ pstr (" x")) ≠ normalizeSku (pstr (" x"))) ∧
    (noWs (pstr ("U\u212A-abc")) ∧
      normalizeSku (normalizeSku (pstr ("U\u212A-abc"))) ≠
        normalizeSku (pstr ("U\u212A-abc"))) ∧
    normalizeSku (pstr ("OT-") ++ pstr ("\x0Bx")) ≠ normalizeSku (pstr ("\x0Bx")) := by
  decide

/-!
### The cost resolver (C4, C5)
-/

lemma historicalPeriods_go_length :
    ∀ (n : Nat) (ym : Int × Int), (historicalPeriods.go n ym).length = n := by
  intro n
  induction n with
  | zero => intro ym; rfl
  | succ n ih => intro ym; simp [historicalPeriods.go, ih]

lemma historicalPeriods_length (year month : Int) :
    (historicalPeriods year month).length = 24 := by
  simp [historicalPeriods, historicalPeriods_go_length]

lemma getCostForSkuDate_of_row {idx : CostIndex} {sku : PyStr} {year month : Int}
    {r : CostRow} {v : ℚ} (hs : sku ≠ [])
    (hf : idx.find? (fun row => row.nsku = normalizeSku sku) = some r)
    (hm : ¬(month < 1 ∨ 12 < month)) (he : exactCell r year month = some v) :
    getCostForSkuDate idx sku year month = v := by
  unfold getCostForSkuDate
  rw [if_neg hs, hf]
  simp [hm, he]

lemma getCostForSkuDate_no_row {idx : CostIndex} {sku : PyStr} {year month : Int}
    (hf : idx.find? (fun row => row.nsku = normalizeSku sku) = none) :
    getCostForSkuDate idx sku year month = 0 := by
  unfold getCostForSkuDate
  by_cases hs : sku = []
  · rw [if_pos hs]
  · rw [if_neg hs, hf]

/-- C4: the resolver's tiers run in the claimed fixed order — it agrees
everywhere (for a non-falsy listing id) with the cascade written from
the claim: a positive direct cost is returned with provenance `direct`
regardless of sibling availability, else siblings at the same period,
else siblings over the 24-month backward walk, else `(0, missing)`;
the walk is bounded at exactly 24 periods; and the model is a total
function, so no input raises. -/
theorem resolver_fallback_order (idx : CostIndex) (childSkus : Int → List PyStr)
    (sku : PyStr) (year month : Int) (listingId : Option Int)
    (h0 : listingId ≠ some 0) :
    getCostWithFallback idx childSkus sku year month listingId =
      resolveCostSpec idx childSkus sku year month listingId ∧
    (historicalPeriods year month).length = 24 ∧
    (0 < getCostForSkuDate idx sku year month →
      getCostWithFallback idx childSkus sku year month listingId =
        (getCostForSkuDate idx sku year month, Provenance.direct)) := by
  refine ⟨?_, historicalPeriods_length year month, ?_⟩
  · unfold getCostWithFallback resolveCostSpec
    by_cases hd : getCostForSkuDate idx sku year month > 0
    · simp [hd]
    · simp only [hd, if_false]
      cases listingId with
      | none =>
        simp only []
        have h1 : firstPositiveSibling idx [] year month = none := rfl
        rw [h1]
        have h2 : (historicalPeriods year month).findSome?
            (fun ym => firstPositiveSibling idx [] ym.1 ym.2) = none := by
          rw [List.findSome?_eq_none_iff]
          intro ym _
          rfl
        rw [h2]
      | some lid =>
        have hlid : ¬ lid = 0 := fun hh => h0 (by rw [hh])
        simp only [if_neg hlid]
        by_cases hsibs : (childSkus lid).filter
            (fun s => ¬ normalizeSku s = normalizeSku sku) = []
        · simp only [hsibs, if_pos rfl]
          have h1 : firstPositiveSibling idx [] year month = none := rfl
          rw [h1]
          have h2 : (historicalPeriods year month).findSome?
              (fun ym => firstPositiveSibling idx [] ym.1 ym.2) = none := by
            rw [List.findSome?_eq_none_iff]
            intro ym _
            rfl
          rw [h2]
          simp
        · simp only [if_neg hsibs]
  · intro hpos
    unfold getCostWithFallback
    simp [hpos]

/-- C4 witness: the spec's widget listing, with a well-formed listing id. -/
theorem resolver_fallback_order_witness :
    getCostWithFallback widgetCostIndex widgetChildSkus (pstr ("OT-Widget"))
        2025 3 (some 1) =
      resolveCostSpec widgetCostIndex widgetChildSkus (pstr ("OT-Widget"))
        2025 3 (some 1) ∧
    (historicalPeriods 2025 3).length = 24 ∧
    (0 < getCostForSkuDate widgetCostIndex (pstr ("OT-Widget")) 2025 3 →
      getCostWithFallback widgetCostIndex widgetChildSkus (pstr ("OT-Widget"))
          2025 3 (some 1) =
        (getCostForSkuDate widgetCostIndex (pstr ("OT-Widget")) 2025 3,
          Provenance.direct)) :=
  resolver_fallback_order widgetCostIndex widgetChildSkus (pstr ("OT-Widget"))
    2025 3 (some 1) (by decide)

/-- C5 counterexample: SKU `widget` has no Cost-Index cell at 2025-03 —
only a 2024-05 cost of 3 — yet the resolver's direct tier returns that
historical value with provenance `direct`: the direct tier does not
yield a value *only* when a positive cost sits at exactly
`(normalize(sku), year, month)`. -/
theorem resolver_direct_tier_counterexample :
    getCostWithFallback staleCostIndex (fun _ => []) (pstr ("widget")) 2025 3 none =
      (3, Provenance.direct) ∧
    exactCell ⟨pstr ("widget"), [(2024, 5, 3)]⟩ 2025 3 = none := by
  decide

/-- C5 amended: the direct tier returns a positive exact-cell cost with
provenance `direct`; and when the queried SKU has *no row at all* in the
cost table, a sibling with a positive same-period cost is returned with
provenance `siblingSamePeriod` (the spec's OT-Widget example).  What the
counterexample forces: absent an exact cell, the direct tier may also
answer with the same SKU's most recent positive historical cost. -/
theorem resolver_direct_tier_amended (idx : CostIndex)
    (childSkus : Int → List PyStr) (sku : PyStr) (year month : Int)
    (r : CostRow) (v cval : ℚ) (lid : Int) :
    (idx.find? (fun row => row.nsku = normalizeSku sku) = some r →
      sku ≠ [] → ¬(month < 1 ∨ 12 < month) →
      exactCell r year month = some v → 0 < v →
      ∀ listingId, getCostWithFallback idx childSkus sku year month listingId =
        (v, Provenance.direct)) ∧
    (idx.find? (fun row => row.nsku = normalizeSku sku) = none →
      lid ≠ 0 →
      firstPositiveSibling idx
          ((childSkus lid).filter (fun s => ¬ normalizeSku s = normalizeSku sku))
          year month = some cval →
      getCostWithFallback idx childSkus sku year month (some lid) =
        (cval, Provenance.siblingSamePeriod)) := by
  constructor
  · intro hf hs hm he hv listingId
    have hd : getCostForSkuDate idx sku year month = v :=
      getCostForSkuDate_of_row hs hf hm he
    unfold getCostWithFallback
    rw [hd, if_pos hv]
  · intro hf hlid hsib
    have hd : getCostForSkuDate idx sku year month = 0 :=
      getCostForSkuDate_no_row hf
    have hsne : (childSkus lid).filter
        (fun s => ¬ normalizeSku s = normalizeSku sku) ≠ [] := by
      intro hx
      rw [hx] at hsib
      exact absurd hsib (by simp [firstPositiveSibling])
    unfold getCostWithFallback
    rw [hd, if_neg (by norm_num : ¬((0 : ℚ) > 0))]
    dsimp only
    rw [if_neg hlid, if_neg hsne, hsib]

/-- C5 witness: the stale-index direct case and the spec's
OT-Widget / OT-Widget-Red $4.00 2025-03 sibling case. -/
theorem resolver_direct_tier_witness :
    getCostWithFallback staleCostIndex (fun _ => []) (pstr ("widget")) 2024 5
        none = (3, Provenance.direct) ∧
    getCostWithFallback widgetCostIndex widgetChildSkus (pstr ("OT-Widget"))
        2025 3 (some 1) = (4, Provenance.siblingSamePeriod) := by
  constructor
  · exact (resolver_direct_tier_amended staleCostIndex (fun _ => [])
      (pstr ("widget")) 2024 5 ⟨pstr ("widget"), [(2024, 5, 3)]⟩ 3 0 1).1
      (by decide) (by decide) (by decide) (by decide) (by decide) none
  · exact (resolver_direct_tier_amended widgetCostIndex widgetChildSkus
      (pstr ("OT-Widget")) 2025 3 ⟨[], []⟩ 0 4 1).2
      (by decide) (by decide) (by decide)

/-!
### The hierarchical aggregator (C1, C2, C9)
-/

lemma additiveVec_sumMetrics (a b : Metrics) :
    additiveVec (sumMetrics a b) =
      List.zipWith (· + ·) (additiveVec a) (additiveVec b) := by
  dsimp only [additiveVec, sumMetrics, List.zipWith]
  push_cast
  rfl

lemma zipWith_add_assoc :
    ∀ A B C : List ℚ,
      List.zipWith (· + ·) (List.zipWith (· + ·) A B) C =
        List.zipWith (· + ·) A (List.zipWith (· + ·) B C) := by
  intro A
  induction A with
  | nil => intro B C; simp
  | cons x xs ih =>
    intro B C
    cases B with
    | nil => simp
    | cons y ys =>
      cases C with
      | nil => simp
      | cons z zs => simp [ih, add_assoc]

lemma sumMetrics_gross_revenue (a b : Metrics) :
    (sumMetrics a b).gross_revenue = a.gross_revenue + b.gross_revenue := rfl

lemma sumMetrics_total_discounts_given (a b : Metrics) :
    (sumMetrics a b).total_discounts_given = a.total_discounts_given + b.total_discounts_given := rfl

lemma sumMetrics_gross_profit (a b : Metrics) :
    (sumMetrics a b).gross_profit = a.gross_profit + b.gross_profit := rfl

lemma sumMetrics_net_profit (a b : Metrics) :
    (sumMetrics a b).net_profit = a.net_profit + b.net_profit := rfl

lemma sumMetrics_total_etsy_fees (a b : Metrics) :
    (sumMetrics a b).total_etsy_fees = a.total_etsy_fees + b.total_etsy_fees := rfl

lemma sumMetrics_net_revenue (a b : Metrics) :
    (sumMetrics a b).net_revenue = a.net_revenue + b.net_revenue := rfl

lemma sumMetrics_total_refund_amount (a b : Metrics) :
    (sumMetrics a b).total_refund_amount = a.total_refund_amount + b.total_refund_amount := rfl

lemma sumMetrics_total_cost (a b : Metrics) :
    (sumMetrics a b).total_cost = a.total_cost + b.total_cost := rfl

lemma sumMetrics_total_cost_with_shipping (a b : Metrics) :
    (sumMetrics a b).total_cost_with_shipping = a.total_cost_with_shipping + b.total_cost_with_shipping := rfl

lemma sumMetrics_total_orders (a b : Metrics) :
    (sumMetrics a b).total_orders = a.total_orders + b.total_orders := rfl

lemma sumMetrics_total_items (a b : Metrics) :
    (sumMetrics a b).total_items = a.total_items + b.total_items := rfl

lemma sumMetrics_unique_customers (a b : Metrics) :
    (sumMetrics a b).unique_customers = a.unique_customers + b.unique_customers := rfl

lemma sumMetrics_total_refund_count (a b : Metrics) :
    (sumMetrics a b).total_refund_count = a.total_refund_count + b.total_refund_count := rfl

lemma sumMetrics_orders_with_refunds (a b : Metrics) :
    (sumMetrics a b).orders_with_refunds = a.orders_with_refunds + b.orders_with_refunds := rfl

lemma sumMetrics_items_with_direct_cost (a b : Metrics) :
    (sumMetrics a b).items_with_direct_cost = a.items_with_direct_cost + b.items_with_direct_cost := rfl

lemma sumMetrics_items_with_fallback_cost (a b : Metrics) :
    (sumMetrics a b).items_with_fallback_cost = a.items_with_fallback_cost + b.items_with_fallback_cost := rfl

lemma sumMetrics_items_missing_cost (a b : Metrics) :
    (sumMetrics a b).items_missing_cost = a.items_missing_cost + b.items_missing_cost := rfl

lemma sumMetrics_ratio_discount_rate {a b : Metrics}
    (h : 0 < a.gross_revenue + b.gross_revenue) :
    (sumMetrics a b).discount_rate =
      (a.total_discounts_given + b.total_discounts_given) / (a.gross_revenue + b.gross_revenue) := by
  have hne : a.gross_revenue + b.gross_revenue ≠ 0 := ne_of_gt h
  dsimp only [sumMetrics]
  rw [if_neg hne, if_pos h]

lemma sumMetrics_ratio_gross_margin {a b : Metrics}
    (h : 0 < a.gross_revenue + b.gross_revenue) :
    (sumMetrics a b).gross_margin =
      (a.gross_profit + b.gross_profit) / (a.gross_revenue + b.gross_revenue) := by
  have hne : a.gross_revenue + b.gross_revenue ≠ 0 := ne_of_gt h
  dsimp only [sumMetrics]
  rw [if_neg hne, if_pos h]

lemma sumMetrics_ratio_net_margin {a b : Metrics}
    (h : 0 < a.gross_revenue + b.gross_revenue) :
    (sumMetrics a b).net_margin =
      (a.net_profit + b.net_profit) / (a.gross_revenue + b.gross_revenue) := by
  have hne : a.gross_revenue + b.gross_revenue ≠ 0 := ne_of_gt h
  dsimp only [sumMetrics]
  rw [if_neg hne, if_pos h]

lemma sumMetrics_ratio_return_on_revenue {a b : Metrics}
    (h : 0 < a.gross_revenue + b.gross_revenue) :
    (sumMetrics a b).return_on_revenue =
      (a.net_profit + b.net_profit) / (a.gross_revenue + b.gross_revenue) := by
  have hne : a.gross_revenue + b.gross_revenue ≠ 0 := ne_of_gt h
  dsimp only [sumMetrics]
  rw [if_neg hne, if_pos h]

lemma sumMetrics_ratio_etsy_fee_rate {a b : Metrics}
    (h : 0 < a.gross_revenue + b.gross_revenue) :
    (sumMetrics a b).etsy_fee_rate =
      (a.total_etsy_fees + b.total_etsy_fees) / (a.gross_revenue + b.gross_revenue) := by
  have hne : a.gross_revenue + b.gross_revenue ≠ 0 := ne_of_gt h
  dsimp only [sumMetrics]
  rw [if_neg hne, if_pos h]

lemma sumMetrics_ratio_take_home_rate {a b : Metrics}
    (h : 0 < a.gross_revenue + b.gross_revenue) :
    (sumMetrics a b).take_home_rate =
      (a.net_revenue + b.net_revenue) / (a.gross_revenue + b.gross_revenue) := by
  have hne : a.gross_revenue + b.gross_revenue ≠ 0 := ne_of_gt h
  dsimp only [sumMetrics]
  rw [if_neg hne, if_pos h]

lemma sumMetrics_ratio_refund_rate_by_value {a b : Metrics}
    (h : 0 < a.gross_revenue + b.gross_revenue) :
    (sumMetrics a b).refund_rate_by_value =
      (a.total_refund_amount + b.total_refund_amount) / (a.gross_revenue + b.gross_revenue) := by
  have hne : a.gross_revenue + b.gross_revenue ≠ 0 := ne_of_gt h
  dsimp only [sumMetrics]
  rw [if_neg hne, if_pos h]

lemma sumMetrics_ratio_markup_ratio {a b : Metrics}
    (ht : 0 < a.total_cost_with_shipping + b.total_cost_with_shipping) :
    (sumMetrics a b).markup_ratio =
      (a.gross_profit + b.gross_profit) /
        (a.total_cost_with_shipping + b.total_cost_with_shipping) := by
  dsimp only [sumMetrics]
  rw [if_pos ht]

lemma sumMetrics_ratio_average_order_value {a b : Metrics}
    (hg : a.gross_revenue + b.gross_revenue ≠ 0)
    (ho : 0 < a.total_orders + b.total_orders) :
    (sumMetrics a b).average_order_value =
      (a.gross_revenue + b.gross_revenue) /
        ((a.total_orders + b.total_orders : ℤ) : ℚ) := by
  dsimp only [sumMetrics]
  rw [if_neg hg, if_pos ho]

lemma sumMetrics_ratio_items_per_order {a b : Metrics}
    (ho : 0 < a.total_orders + b.total_orders) :
    (sumMetrics a b).items_per_order =
      ((a.total_items + b.total_items : ℤ) : ℚ) / ((a.total_orders + b.total_orders : ℤ) : ℚ) := by
  dsimp only [sumMetrics]
  rw [if_pos ho]

lemma sumMetrics_ratio_refund_rate_by_order {a b : Metrics}
    (ho : 0 < a.total_orders + b.total_orders) :
    (sumMetrics a b).refund_rate_by_order =
      ((a.total_refund_count + b.total_refund_count : ℤ) : ℚ) / ((a.total_orders + b.total_orders : ℤ) : ℚ) := by
  dsimp only [sumMetrics]
  rw [if_pos ho]

lemma sumMetrics_ratio_order_refund_rate {a b : Metrics}
    (ho : 0 < a.total_orders + b.total_orders) :
    (sumMetrics a b).order_refund_rate =
      ((a.orders_with_refunds + b.orders_with_refunds : ℤ) : ℚ) / ((a.total_orders + b.total_orders : ℤ) : ℚ) := by
  dsimp only [sumMetrics]
  rw [if_pos ho]

lemma sumMetrics_ratio_cost_per_order {a b : Metrics}
    (ho : 0 < a.total_orders + b.total_orders)
    (ht : 0 < a.total_cost_with_shipping + b.total_cost_with_shipping) :
    (sumMetrics a b).cost_per_order =
      (a.total_cost_with_shipping + b.total_cost_with_shipping) /
        ((a.total_orders + b.total_orders : ℤ) : ℚ) := by
  dsimp only [sumMetrics]
  rw [if_pos ho, if_pos ht]

lemma sumMetrics_ratio_revenue_per_item {a b : Metrics}
    (hg : a.gross_revenue + b.gross_revenue ≠ 0)
    (hi : 0 < a.total_items + b.total_items) :
    (sumMetrics a b).revenue_per_item =
      (a.gross_revenue + b.gross_revenue) /
        ((a.total_items + b.total_items : ℤ) : ℚ) := by
  dsimp only [sumMetrics]
  rw [if_neg hg, if_pos hi]

lemma sumMetrics_ratio_profit_per_item {a b : Metrics}
    (hi : 0 < a.total_items + b.total_items) :
    (sumMetrics a b).profit_per_item =
      (a.gross_profit + b.gross_profit) / ((a.total_items + b.total_items : ℤ) : ℚ) := by
  dsimp only [sumMetrics]
  rw [if_pos hi]

lemma sumMetrics_ratio_avg_cost_per_item {a b : Metrics}
    (hi : 0 < a.total_items + b.total_items) :
    (sumMetrics a b).avg_cost_per_item =
      (a.total_cost + b.total_cost) / ((a.total_items + b.total_items : ℤ) : ℚ) := by
  dsimp only [sumMetrics]
  rw [if_pos hi]

lemma sumMetrics_ratio_revenue_per_customer {a b : Metrics}
    (hg : a.gross_revenue + b.gross_revenue ≠ 0)
    (hc : 0 < a.unique_customers + b.unique_customers) :
    (sumMetrics a b).revenue_per_customer =
      (a.gross_revenue + b.gross_revenue) /
        ((a.unique_customers + b.unique_customers : ℤ) : ℚ) := by
  dsimp only [sumMetrics]
  rw [if_neg hg, if_pos hc]

lemma sumMetrics_ratio_orders_per_customer {a b : Metrics}
    (hc : 0 < a.unique_customers + b.unique_customers) :
    (sumMetrics a b).orders_per_customer =
      ((a.total_orders + b.total_orders : ℤ) : ℚ) /
        ((a.unique_customers + b.unique_customers : ℤ) : ℚ) := by
  dsimp only [sumMetrics]
  rw [if_pos hc]

lemma sumMetrics_ratio_profit_per_customer {a b : Metrics}
    (hc : 0 < a.unique_customers + b.unique_customers) :
    (sumMetrics a b).profit_per_customer =
      (a.gross_profit + b.gross_profit) /
        ((a.unique_customers + b.unique_customers : ℤ) : ℚ) := by
  dsimp only [sumMetrics]
  rw [if_pos hc]

lemma sumMetrics_ratio_cost_coverage {a b : Metrics}
    (hn : 0 < (a.items_with_direct_cost + b.items_with_direct_cost) +
      (a.items_with_fallback_cost + b.items_with_fallback_cost) +
      (a.items_missing_cost + b.items_missing_cost)) :
    (sumMetrics a b).cost_coverage_percent =
      (((a.items_with_direct_cost + b.items_with_direct_cost) +
        (a.items_with_fallback_cost + b.items_with_fallback_cost) : ℤ) : ℚ) /
      (((a.items_with_direct_cost + b.items_with_direct_cost) +
        (a.items_with_fallback_cost + b.items_with_fallback_cost) +
        (a.items_missing_cost + b.items_missing_cost) : ℤ) : ℚ) * 100 := by
  dsimp only [sumMetrics]
  rw [if_pos hn]

/-- C1: `_sum_metrics` sums every additive field (so aggregation is
associative and commutative on them), and recomputes its guarded ratio
blocks from the freshly summed numerators and denominators: under
positive summed denominators, every such ratio in either association
order equals the ratio of the flat sums over the three children — none
is obtained by summing or averaging the children's ratios.  (The
unrestricted claim fails for the volume rates `_sum_metrics` never
assigns — `shipping_rate`, `gift_rate`, `cancellation_rate`,
`completion_rate`, `customer_retention_rate` — which are carried over
from the first child; see the counterexample.) -/
theorem aggregation_sums_and_rederives (a b c : Metrics)
    (hg : 0 < a.gross_revenue + b.gross_revenue + c.gross_revenue)
    (ho : 0 < a.total_orders + b.total_orders + c.total_orders)
    (hi : 0 < a.total_items + b.total_items + c.total_items)
    (hc : 0 < a.unique_customers + b.unique_customers + c.unique_customers)
    (ht : 0 < a.total_cost_with_shipping + b.total_cost_with_shipping +
      c.total_cost_with_shipping)
    (hn : 0 < a.items_with_direct_cost + b.items_with_direct_cost +
        c.items_with_direct_cost +
      (a.items_with_fallback_cost + b.items_with_fallback_cost +
        c.items_with_fallback_cost) +
      (a.items_missing_cost + b.items_missing_cost + c.items_missing_cost)) :
    additiveVec (sumMetrics a b) =
      List.zipWith (· + ·) (additiveVec a) (additiveVec b) ∧
    additiveVec (sumMetrics a b) = additiveVec (sumMetrics b a) ∧
    additiveVec (sumMetrics (sumMetrics a b) c) =
      additiveVec (sumMetrics a (sumMetrics b c)) ∧
    ((sumMetrics (sumMetrics a b) c).discount_rate = (a.total_discounts_given + b.total_discounts_given + c.total_discounts_given) / (a.gross_revenue + b.gross_revenue + c.gross_revenue) ∧
      (sumMetrics a (sumMetrics b c)).discount_rate = (a.total_discounts_given + b.total_discounts_given + c.total_discounts_given) / (a.gross_revenue + b.gross_revenue + c.gross_revenue)) ∧
    ((sumMetrics (sumMetrics a b) c).gross_margin = (a.gross_profit + b.gross_profit + c.gross_profit) / (a.gross_revenue + b.gross_revenue + c.gross_revenue) ∧
      (sumMetrics a (sumMetrics b c)).gross_margin = (a.gross_profit + b.gross_profit + c.gross_profit) / (a.gross_revenue + b.gross_revenue + c.gross_revenue)) ∧
    ((sumMetrics (sumMetrics a b) c).net_margin = (a.net_profit + b.net_profit + c.net_profit) / (a.gross_revenue + b.gross_revenue + c.gross_revenue) ∧
      (sumMetrics a (sumMetrics b c)).net_margin = (a.net_profit + b.net_profit + c.net_profit) / (a.gross_revenue + b.gross_revenue + c.gross_revenue)) ∧
    ((sumMetrics (sumMetrics a b) c).return_on_revenue = (a.net_profit + b.net_profit + c.net_profit) / (a.gross_revenue + b.gross_revenue + c.gross_revenue) ∧
      (sumMetrics a (sumMetrics b c)).return_on_revenue = (a.net_profit + b.net_profit + c.net_profit) / (a.gross_revenue + b.gross_revenue + c.gross_revenue)) ∧
    ((sumMetrics (sumMetrics a b) c).etsy_fee_rate = (a.total_etsy_fees + b.total_etsy_fees + c.total_etsy_fees) / (a.gross_revenue + b.gross_revenue + c.gross_revenue) ∧
      (sumMetrics a (sumMetrics b c)).etsy_fee_rate = (a.total_etsy_fees + b.total_etsy_fees + c.total_etsy_fees) / (a.gross_revenue + b.gross_revenue + c.gross_revenue)) ∧
    ((sumMetrics (sumMetrics a b) c).take_home_rate = (a.net_revenue + b.net_revenue + c.net_revenue) / (a.gross_revenue + b.gross_revenue + c.gross_revenue) ∧
      (sumMetrics a (sumMetrics b c)).take_home_rate = (a.net_revenue + b.net_revenue + c.net_revenue) / (a.gross_revenue + b.gross_revenue + c.gross_revenue)) ∧
    ((sumMetrics (sumMetrics a b) c).refund_rate_by_value = (a.total_refund_amount + b.total_refund_amount + c.total_refund_amount) / (a.gross_revenue + b.gross_revenue + c.gross_revenue) ∧
      (sumMetrics a (sumMetrics b c)).refund_rate_by_value = (a.total_refund_amount + b.total_refund_amount + c.total_refund_amount) / (a.gross_revenue + b.gross_revenue + c.gross_revenue)) ∧
    ((sumMetrics (sumMetrics a b) c).markup_ratio = (a.gross_profit + b.gross_profit + c.gross_profit) / (a.total_cost_with_shipping + b.total_cost_with_shipping + c.total_cost_with_shipping) ∧
      (sumMetrics a (sumMetrics b c)).markup_ratio = (a.gross_profit + b.gross_profit + c.gross_profit) / (a.total_cost_with_shipping + b.total_cost_with_shipping + c.total_cost_with_shipping)) ∧
    ((sumMetrics (sumMetrics a b) c).average_order_value = (a.gross_revenue + b.gross_revenue + c.gross_revenue) / ((a.total_orders + b.total_orders + c.total_orders : ℤ) : ℚ) ∧
      (sumMetrics a (sumMetrics b c)).average_order_value = (a.gross_revenue + b.gross_revenue + c.gross_revenue) / ((a.total_orders + b.total_orders + c.total_orders : ℤ) : ℚ)) ∧
    ((sumMetrics (sumMetrics a b) c).items_per_order = ((a.total_items + b.total_items + c.total_items : ℤ) : ℚ) / ((a.total_orders + b.total_orders + c.total_orders : ℤ) : ℚ) ∧
      (sumMetrics a (sumMetrics b c)).items_per_order = ((a.total_items + b.total_items + c.total_items : ℤ) : ℚ) / ((a.total_orders + b.total_orders + c.total_orders : ℤ) : ℚ)) ∧
    ((sumMetrics (sumMetrics a b) c).refund_rate_by_order = ((a.total_refund_count + b.total_refund_count + c.total_refund_count : ℤ) : ℚ) / ((a.total_orders + b.total_orders + c.total_orders : ℤ) : ℚ) ∧
      (sumMetrics a (sumMetrics b c)).refund_rate_by_order = ((a.total_refund_count + b.total_refund_count + c.total_refund_count : ℤ) : ℚ) / ((a.total_orders + b.total_orders + c.total_orders : ℤ) : ℚ)) ∧
    ((sumMetrics (sumMetrics a b) c).order_refund_rate = ((a.orders_with_refunds + b.orders_with_refunds + c.orders_with_refunds : ℤ) : ℚ) / ((a.total_orders + b.total_orders + c.total_orders : ℤ) : ℚ) ∧
      (sumMetrics a (sumMetrics b c)).order_refund_rate = ((a.orders_with_refunds + b.orders_with_refunds + c.orders_with_refunds : ℤ) : ℚ) / ((a.total_orders + b.total_orders + c.total_orders : ℤ) : ℚ)) ∧
    ((sumMetrics (sumMetrics a b) c).cost_per_order = (a.total_cost_with_shipping + b.total_cost_with_shipping + c.total_cost_with_shipping) / ((a.total_orders + b.total_orders + c.total_orders : ℤ) : ℚ) ∧
      (sumMetrics a (sumMetrics b c)).cost_per_order = (a.total_cost_with_shipping + b.total_cost_with_shipping + c.total_cost_with_shipping) / ((a.total_orders + b.total_orders + c.total_orders : ℤ) : ℚ)) ∧
    ((sumMetrics (sumMetrics a b) c).revenue_per_item = (a.gross_revenue + b.gross_revenue + c.gross_revenue) / ((a.total_items + b.total_items + c.total_items : ℤ) : ℚ) ∧
      (sumMetrics a (sumMetrics b c)).revenue_per_item = (a.gross_revenue + b.gross_revenue + c.gross_revenue) / ((a.total_items + b.total_items + c.total_items : ℤ) : ℚ)) ∧
    ((sumMetrics (sumMetrics a b) c).profit_per_item = (a.gross_profit + b.gross_profit + c.gross_profit) / ((a.total_items + b.total_items + c.total_items : ℤ) : ℚ) ∧
      (sumMetrics a (sumMetrics b c)).profit_per_item = (a.gross_profit + b.gross_profit + c.gross_profit) / ((a.total_items + b.total_items + c.total_items : ℤ) : ℚ)) ∧
    ((sumMetrics (sumMetrics a b) c).avg_cost_per_item = (a.total_cost + b.total_cost + c.total_cost) / ((a.total_items + b.total_items + c.total_items : ℤ) : ℚ) ∧
      (sumMetrics a (sumMetrics b c)).avg_cost_per_item = (a.total_cost + b.total_cost + c.total_cost) / ((a.total_items + b.total_items + c.total_items : ℤ) : ℚ)) ∧
    ((sumMetrics (sumMetrics a b) c).revenue_per_customer = (a.gross_revenue + b.gross_revenue + c.gross_revenue) / ((a.unique_customers + b.unique_customers + c.unique_customers : ℤ) : ℚ) ∧
      (sumMetrics a (sumMetrics b c)).revenue_per_customer = (a.gross_revenue + b.gross_revenue + c.gross_revenue) / ((a.unique_customers + b.unique_customers + c.unique_customers : ℤ) : ℚ)) ∧
    ((sumMetrics (sumMetrics a b) c).orders_per_customer = ((a.total_orders + b.total_orders + c.total_orders : ℤ) : ℚ) / ((a.unique_customers + b.unique_customers + c.unique_customers : ℤ) : ℚ) ∧
      (sumMetrics a (sumMetrics b c)).orders_per_customer = ((a.total_orders + b.total_orders + c.total_orders : ℤ) : ℚ) / ((a.unique_customers + b.unique_customers + c.unique_customers : ℤ) : ℚ)) ∧
    ((sumMetrics (sumMetrics a b) c).profit_per_customer = (a.gross_profit + b.gross_profit + c.gross_profit) / ((a.unique_customers + b.unique_customers + c.unique_customers : ℤ) : ℚ) ∧
      (sumMetrics a (sumMetrics b c)).profit_per_customer = (a.gross_profit + b.gross_profit + c.gross_profit) / ((a.unique_customers + b.unique_customers + c.unique_customers : ℤ) : ℚ)) ∧
    ((sumMetrics (sumMetrics a b) c).cost_coverage_percent = (((a.items_with_direct_cost + b.items_with_direct_cost + c.items_with_direct_cost) + (a.items_with_fallback_cost + b.items_with_fallback_cost + c.items_with_fallback_cost) : ℤ) : ℚ) / (((a.items_with_direct_cost + b.items_with_direct_cost + c.items_with_direct_cost) + (a.items_with_fallback_cost + b.items_with_fallback_cost + c.items_with_fallback_cost) + (a.items_missing_cost + b.items_missing_cost + c.items_missing_cost) : ℤ) : ℚ) * 100 ∧
      (sumMetrics a (sumMetrics b c)).cost_coverage_percent = (((a.items_with_direct_cost + b.items_with_direct_cost + c.items_with_direct_cost) + (a.items_with_fallback_cost + b.items_with_fallback_cost + c.items_with_fallback_cost) : ℤ) : ℚ) / (((a.items_with_direct_cost + b.items_with_direct_cost + c.items_with_direct_cost) + (a.items_with_fallback_cost + b.items_with_fallback_cost + c.items_with_fallback_cost) + (a.items_missing_cost + b.items_missing_cost + c.items_missing_cost) : ℤ) : ℚ) * 100) := by
  have hgne : a.gross_revenue + b.gross_revenue + c.gross_revenue ≠ 0 :=
    ne_of_gt hg
  have hg2 : 0 < a.gross_revenue + (b.gross_revenue + c.gross_revenue) := by
    linarith
  have hgne2 : a.gross_revenue + (b.gross_revenue + c.gross_revenue) ≠ 0 :=
    ne_of_gt hg2
  have ho2 : 0 < a.total_orders + (b.total_orders + c.total_orders) := by omega
  have hi2 : 0 < a.total_items + (b.total_items + c.total_items) := by omega
  have hc2 : 0 < a.unique_customers + (b.unique_customers + c.unique_customers) := by
    omega
  have ht2 : 0 < a.total_cost_with_shipping + (b.total_cost_with_shipping +
      c.total_cost_with_shipping) := by linarith
  have hn2 : 0 < a.items_with_direct_cost + (b.items_with_direct_cost +
        c.items_with_direct_cost) +
      (a.items_with_fallback_cost + (b.items_with_fallback_cost +
        c.items_with_fallback_cost)) +
      (a.items_missing_cost + (b.items_missing_cost + c.items_missing_cost)) := by
    omega
  refine ⟨additiveVec_sumMetrics a b, ?_, ?_, ?_, ?_, ?_, ?_, ?_, ?_, ?_, ?_, ?_, ?_, ?_, ?_, ?_, ?_, ?_, ?_, ?_, ?_, ?_, ?_⟩
  · rw [additiveVec_sumMetrics a b, additiveVec_sumMetrics b a]
    exact List.zipWith_comm_of_comm _ (fun x y => add_comm x y) _ _
  · rw [additiveVec_sumMetrics (sumMetrics a b) c, additiveVec_sumMetrics a b,
      additiveVec_sumMetrics a (sumMetrics b c), additiveVec_sumMetrics b c]
    exact zipWith_add_assoc _ _ _
  · constructor
    · exact sumMetrics_ratio_discount_rate hg
    · rw [sumMetrics_ratio_discount_rate (a := a) (b := sumMetrics b c) hg2]
      simp only [sumMetrics_gross_revenue, sumMetrics_total_discounts_given, sumMetrics_gross_profit, sumMetrics_net_profit, sumMetrics_total_etsy_fees, sumMetrics_net_revenue, sumMetrics_total_refund_amount, sumMetrics_total_cost, sumMetrics_total_cost_with_shipping, sumMetrics_total_orders, sumMetrics_total_items, sumMetrics_unique_customers, sumMetrics_total_refund_count, sumMetrics_orders_with_refunds, sumMetrics_items_with_direct_cost, sumMetrics_items_with_fallback_cost, sumMetrics_items_missing_cost]
      push_cast
      ring
  · constructor
    · exact sumMetrics_ratio_gross_margin hg
    · rw [sumMetrics_ratio_gross_margin (a := a) (b := sumMetrics b c) hg2]
      simp only [sumMetrics_gross_revenue, sumMetrics_total_discounts_given, sumMetrics_gross_profit, sumMetrics_net_profit, sumMetrics_total_etsy_fees, sumMetrics_net_revenue, sumMetrics_total_refund_amount, sumMetrics_total_cost, sumMetrics_total_cost_with_shipping, sumMetrics_total_orders, sumMetrics_total_items, sumMetrics_unique_customers, sumMetrics_total_refund_count, sumMetrics_orders_with_refunds, sumMetrics_items_with_direct_cost, sumMetrics_items_with_fallback_cost, sumMetrics_items_missing_cost]
      push_cast
      ring
  · constructor
    · exact sumMetrics_ratio_net_margin hg
    · rw [sumMetrics_ratio_net_margin (a := a) (b := sumMetrics b c) hg2]
      simp only [sumMetrics_gross_revenue, sumMetrics_total_discounts_given, sumMetrics_gross_profit, sumMetrics_net_profit, sumMetrics_total_etsy_fees, sumMetrics_net_revenue, sumMetrics_total_refund_amount, sumMetrics_total_cost, sumMetrics_total_cost_with_shipping, sumMetrics_total_orders, sumMetrics_total_items, sumMetrics_unique_customers, sumMetrics_total_refund_count, sumMetrics_orders_with_refunds, sumMetrics_items_with_direct_cost, sumMetrics_items_with_fallback_cost, sumMetrics_items_missing_cost]
      push_cast
      ring
  · constructor
    · exact sumMetrics_ratio_return_on_revenue hg
    · rw [sumMetrics_ratio_return_on_revenue (a := a) (b := sumMetrics b c) hg2]
      simp only [sumMetrics_gross_revenue, sumMetrics_total_discounts_given, sumMetrics_gross_profit, sumMetrics_net_profit, sumMetrics_total_etsy_fees, sumMetrics_net_revenue, sumMetrics_total_refund_amount, sumMetrics_total_cost, sumMetrics_total_cost_with_shipping, sumMetrics_total_orders, sumMetrics_total_items, sumMetrics_unique_customers, sumMetrics_total_refund_count, sumMetrics_orders_with_refunds, sumMetrics_items_with_direct_cost, sumMetrics_items_with_fallback_cost, sumMetrics_items_missing_cost]
      push_cast
      ring
  · constructor
    · exact sumMetrics_ratio_etsy_fee_rate hg
    · rw [sumMetrics_ratio_etsy_fee_rate (a := a) (b := sumMetrics b c) hg2]
      simp only [sumMetrics_gross_revenue, sumMetrics_total_discounts_given, sumMetrics_gross_profit, sumMetrics_net_profit, sumMetrics_total_etsy_fees, sumMetrics_net_revenue, sumMetrics_total_refund_amount, sumMetrics_total_cost, sumMetrics_total_cost_with_shipping, sumMetrics_total_orders, sumMetrics_total_items, sumMetrics_unique_customers, sumMetrics_total_refund_count, sumMetrics_orders_with_refunds, sumMetrics_items_with_direct_cost, sumMetrics_items_with_fallback_cost, sumMetrics_items_missing_cost]
      push_cast
      ring
  · constructor
    · exact sumMetrics_ratio_take_home_rate hg
    · rw [sumMetrics_ratio_take_home_rate (a := a) (b := sumMetrics b c) hg2]
      simp only [sumMetrics_gross_revenue, sumMetrics_total_discounts_given, sumMetrics_gross_profit, sumMetrics_net_profit, sumMetrics_total_etsy_fees, sumMetrics_net_revenue, sumMetrics_total_refund_amount, sumMetrics_total_cost, sumMetrics_total_cost_with_shipping, sumMetrics_total_orders, sumMetrics_total_items, sumMetrics_unique_customers, sumMetrics_total_refund_count, sumMetrics_orders_with_refunds, sumMetrics_items_with_direct_cost, sumMetrics_items_with_fallback_cost, sumMetrics_items_missing_cost]
      push_cast
      ring
  · constructor
    · exact sumMetrics_ratio_refund_rate_by_value hg
    · rw [sumMetrics_ratio_refund_rate_by_value (a := a) (b := sumMetrics b c) hg2]
      simp only [sumMetrics_gross_revenue, sumMetrics_total_discounts_given, sumMetrics_gross_profit, sumMetrics_net_profit, sumMetrics_total_etsy_fees, sumMetrics_net_revenue, sumMetrics_total_refund_amount, sumMetrics_total_cost, sumMetrics_total_cost_with_shipping, sumMetrics_total_orders, sumMetrics_total_items, sumMetrics_unique_customers, sumMetrics_total_refund_count, sumMetrics_orders_with_refunds, sumMetrics_items_with_direct_cost, sumMetrics_items_with_fallback_cost, sumMetrics_items_missing_cost]
      push_cast
      ring
  · constructor
    · exact sumMetrics_ratio_markup_ratio ht
    · rw [sumMetrics_ratio_markup_ratio (a := a) (b := sumMetrics b c) ht2]
      simp only [sumMetrics_gross_revenue, sumMetrics_total_discounts_given, sumMetrics_gross_profit, sumMetrics_net_profit, sumMetrics_total_etsy_fees, sumMetrics_net_revenue, sumMetrics_total_refund_amount, sumMetrics_total_cost, sumMetrics_total_cost_with_shipping, sumMetrics_total_orders, sumMetrics_total_items, sumMetrics_unique_customers, sumMetrics_total_refund_count, sumMetrics_orders_with_refunds, sumMetrics_items_with_direct_cost, sumMetrics_items_with_fallback_cost, sumMetrics_items_missing_cost]
      push_cast
      ring
  · constructor
    · exact sumMetrics_ratio_average_order_value hgne ho
    · rw [sumMetrics_ratio_average_order_value (a := a) (b := sumMetrics b c) hgne2 ho2]
      simp only [sumMetrics_gross_revenue, sumMetrics_total_discounts_given, sumMetrics_gross_profit, sumMetrics_net_profit, sumMetrics_total_etsy_fees, sumMetrics_net_revenue, sumMetrics_total_refund_amount, sumMetrics_total_cost, sumMetrics_total_cost_with_shipping, sumMetrics_total_orders, sumMetrics_total_items, sumMetrics_unique_customers, sumMetrics_total_refund_count, sumMetrics_orders_with_refunds, sumMetrics_items_with_direct_cost, sumMetrics_items_with_fallback_cost, sumMetrics_items_missing_cost]
      push_cast
      ring
  · constructor
    · exact sumMetrics_ratio_items_per_order ho
    · rw [sumMetrics_ratio_items_per_order (a := a) (b := sumMetrics b c) ho2]
      simp only [sumMetrics_gross_revenue, sumMetrics_total_discounts_given, sumMetrics_gross_profit, sumMetrics_net_profit, sumMetrics_total_etsy_fees, sumMetrics_net_revenue, sumMetrics_total_refund_amount, sumMetrics_total_cost, sumMetrics_total_cost_with_shipping, sumMetrics_total_orders, sumMetrics_total_items, sumMetrics_unique_customers, sumMetrics_total_refund_count, sumMetrics_orders_with_refunds, sumMetrics_items_with_direct_cost, sumMetrics_items_with_fallback_cost, sumMetrics_items_missing_cost]
      push_cast
      ring
  · constructor
    · exact sumMetrics_ratio_refund_rate_by_order ho
    · rw [sumMetrics_ratio_refund_rate_by_order (a := a) (b := sumMetrics b c) ho2]
      simp only [sumMetrics_gross_revenue, sumMetrics_total_discounts_given, sumMetrics_gross_profit, sumMetrics_net_profit, sumMetrics_total_etsy_fees, sumMetrics_net_revenue, sumMetrics_total_refund_amount, sumMetrics_total_cost, sumMetrics_total_cost_with_shipping, sumMetrics_total_orders, sumMetrics_total_items, sumMetrics_unique_customers, sumMetrics_total_refund_count, sumMetrics_orders_with_refunds, sumMetrics_items_with_direct_cost, sumMetrics_items_with_fallback_cost, sumMetrics_items_missing_cost]
      push_cast
      ring
  · constructor
    · exact sumMetrics_ratio_order_refund_rate ho
    · rw [sumMetrics_ratio_order_refund_rate (a := a) (b := sumMetrics b c) ho2]
      simp only [sumMetrics_gross_revenue, sumMetrics_total_discounts_given, sumMetrics_gross_profit, sumMetrics_net_profit, sumMetrics_total_etsy_fees, sumMetrics_net_revenue, sumMetrics_total_refund_amount, sumMetrics_total_cost, sumMetrics_total_cost_with_shipping, sumMetrics_total_orders, sumMetrics_total_items, sumMetrics_unique_customers, sumMetrics_total_refund_count, sumMetrics_orders_with_refunds, sumMetrics_items_with_direct_cost, sumMetrics_items_with_fallback_cost, sumMetrics_items_missing_cost]
      push_cast
      ring
  · constructor
    · exact sumMetrics_ratio_cost_per_order ho ht
    · rw [sumMetrics_ratio_cost_per_order (a := a) (b := sumMetrics b c) ho2 ht2]
      simp only [sumMetrics_gross_revenue, sumMetrics_total_discounts_given, sumMetrics_gross_profit, sumMetrics_net_profit, sumMetrics_total_etsy_fees, sumMetrics_net_revenue, sumMetrics_total_refund_amount, sumMetrics_total_cost, sumMetrics_total_cost_with_shipping, sumMetrics_total_orders, sumMetrics_total_items, sumMetrics_unique_customers, sumMetrics_total_refund_count, sumMetrics_orders_with_refunds, sumMetrics_items_with_direct_cost, sumMetrics_items_with_fallback_cost, sumMetrics_items_missing_cost]
      push_cast
      ring
  · constructor
    · exact sumMetrics_ratio_revenue_per_item hgne hi
    · rw [sumMetrics_ratio_revenue_per_item (a := a) (b := sumMetrics b c) hgne2 hi2]
      simp only [sumMetrics_gross_revenue, sumMetrics_total_discounts_given, sumMetrics_gross_profit, sumMetrics_net_profit, sumMetrics_total_etsy_fees, sumMetrics_net_revenue, sumMetrics_total_refund_amount, sumMetrics_total_cost, sumMetrics_total_cost_with_shipping, sumMetrics_total_orders, sumMetrics_total_items, sumMetrics_unique_customers, sumMetrics_total_refund_count, sumMetrics_orders_with_refunds, sumMetrics_items_with_direct_cost, sumMetrics_items_with_fallback_cost, sumMetrics_items_missing_cost]
      push_cast
      ring
  · constructor
    · exact sumMetrics_ratio_profit_per_item hi
    · rw [sumMetrics_ratio_profit_per_item (a := a) (b := sumMetrics b c) hi2]
      simp only [sumMetrics_gross_revenue, sumMetrics_total_discounts_given, sumMetrics_gross_profit, sumMetrics_net_profit, sumMetrics_total_etsy_fees, sumMetrics_net_revenue, sumMetrics_total_refund_amount, sumMetrics_total_cost, sumMetrics_total_cost_with_shipping, sumMetrics_total_orders, sumMetrics_total_items, sumMetrics_unique_customers, sumMetrics_total_refund_count, sumMetrics_orders_with_refunds, sumMetrics_items_with_direct_cost, sumMetrics_items_with_fallback_cost, sumMetrics_items_missing_cost]
      push_cast
      ring
  · constructor
    · exact sumMetrics_ratio_avg_cost_per_item hi
    · rw [sumMetrics_ratio_avg_cost_per_item (a := a) (b := sumMetrics b c) hi2]
      simp only [sumMetrics_gross_revenue, sumMetrics_total_discounts_given, sumMetrics_gross_profit, sumMetrics_net_profit, sumMetrics_total_etsy_fees, sumMetrics_net_revenue, sumMetrics_total_refund_amount, sumMetrics_total_cost, sumMetrics_total_cost_with_shipping, sumMetrics_total_orders, sumMetrics_total_items, sumMetrics_unique_customers, sumMetrics_total_refund_count, sumMetrics_orders_with_refunds, sumMetrics_items_with_direct_cost, sumMetrics_items_with_fallback_cost, sumMetrics_items_missing_cost]
      push_cast
      ring
  · constructor
    · exact sumMetrics_ratio_revenue_per_customer hgne hc
    · rw [sumMetrics_ratio_revenue_per_customer (a := a) (b := sumMetrics b c) hgne2 hc2]
      simp only [sumMetrics_gross_revenue, sumMetrics_total_discounts_given, sumMetrics_gross_profit, sumMetrics_net_profit, sumMetrics_total_etsy_fees, sumMetrics_net_revenue, sumMetrics_total_refund_amount, sumMetrics_total_cost, sumMetrics_total_cost_with_shipping, sumMetrics_total_orders, sumMetrics_total_items, sumMetrics_unique_customers, sumMetrics_total_refund_count, sumMetrics_orders_with_refunds, sumMetrics_items_with_direct_cost, sumMetrics_items_with_fallback_cost, sumMetrics_items_missing_cost]
      push_cast
      ring
  · constructor
    · exact sumMetrics_ratio_orders_per_customer hc
    · rw [sumMetrics_ratio_orders_per_customer (a := a) (b := sumMetrics b c) hc2]
      simp only [sumMetrics_gross_revenue, sumMetrics_total_discounts_given, sumMetrics_gross_profit, sumMetrics_net_profit, sumMetrics_total_etsy_fees, sumMetrics_net_revenue, sumMetrics_total_refund_amount, sumMetrics_total_cost, sumMetrics_total_cost_with_shipping, sumMetrics_total_orders, sumMetrics_total_items, sumMetrics_unique_customers, sumMetrics_total_refund_count, sumMetrics_orders_with_refunds, sumMetrics_items_with_direct_cost, sumMetrics_items_with_fallback_cost, sumMetrics_items_missing_cost]
      push_cast
      ring
  · constructor
    · exact sumMetrics_ratio_profit_per_customer hc
    · rw [sumMetrics_ratio_profit_per_customer (a := a) (b := sumMetrics b c) hc2]
      simp only [sumMetrics_gross_revenue, sumMetrics_total_discounts_given, sumMetrics_gross_profit, sumMetrics_net_profit, sumMetrics_total_etsy_fees, sumMetrics_net_revenue, sumMetrics_total_refund_amount, sumMetrics_total_cost, sumMetrics_total_cost_with_shipping, sumMetrics_total_orders, sumMetrics_total_items, sumMetrics_unique_customers, sumMetrics_total_refund_count, sumMetrics_orders_with_refunds, sumMetrics_items_with_direct_cost, sumMetrics_items_with_fallback_cost, sumMetrics_items_missing_cost]
      push_cast
      ring
  · constructor
    · exact sumMetrics_ratio_cost_coverage hn
    · rw [sumMetrics_ratio_cost_coverage (a := a) (b := sumMetrics b c) hn2]
      simp only [sumMetrics_gross_revenue, sumMetrics_total_discounts_given, sumMetrics_gross_profit, sumMetrics_net_profit, sumMetrics_total_etsy_fees, sumMetrics_net_revenue, sumMetrics_total_refund_amount, sumMetrics_total_cost, sumMetrics_total_cost_with_shipping, sumMetrics_total_orders, sumMetrics_total_items, sumMetrics_unique_customers, sumMetrics_total_refund_count, sumMetrics_orders_with_refunds, sumMetrics_items_with_direct_cost, sumMetrics_items_with_fallback_cost, sumMetrics_items_missing_cost]
      push_cast
      ring

/-- C1 witness: the re-derived margin of both association orders over
three concrete documents equals the flat-sum ratio. -/
theorem aggregation_sums_and_rederives_witness :
    (sumMetrics (sumMetrics denseDoc denseDoc) denseDoc).gross_margin =
      (denseDoc.gross_profit + denseDoc.gross_profit + denseDoc.gross_profit) /
        (denseDoc.gross_revenue + denseDoc.gross_revenue + denseDoc.gross_revenue) ∧
    (sumMetrics denseDoc (sumMetrics denseDoc denseDoc)).gross_margin =
      (denseDoc.gross_profit + denseDoc.gross_profit + denseDoc.gross_profit) /
        (denseDoc.gross_revenue + denseDoc.gross_revenue + denseDoc.gross_revenue) :=
  (aggregation_sums_and_rederives denseDoc denseDoc denseDoc
    (by norm_num [denseDoc, emptyMetrics]) (by decide) (by decide) (by decide)
    (by norm_num [denseDoc, emptyMetrics]) (by decide)).2.2.2.2.1

/-- C1 counterexample: `shipping_rate` is a derived rate, yet
`_sum_metrics` never recomputes it — aggregating a 1-order shipped child
with a 1-order unshipped child keeps the first child's rate 1 instead of
the flat-sum ratio 1/2, so aggregation does not recompute *every*
derived ratio field and the carried rate disagrees with the ratio of the
summed numerator and denominator. -/
theorem aggregation_shipping_rate_counterexample :
    (sumMetrics shippedDoc unshippedDoc).shipping_rate = 1 ∧
    (sumMetrics shippedDoc unshippedDoc).shipped_orders = 1 ∧
    (sumMetrics shippedDoc unshippedDoc).total_orders = 2 ∧
    (sumMetrics shippedDoc unshippedDoc).shipping_rate ≠
      ((sumMetrics shippedDoc unshippedDoc).shipped_orders : ℚ) /
        ((sumMetrics shippedDoc unshippedDoc).total_orders : ℚ) := by
  have h1 : (sumMetrics shippedDoc unshippedDoc).shipping_rate = 1 := rfl
  have h2 : (sumMetrics shippedDoc unshippedDoc).shipped_orders = 1 := rfl
  have h3 : (sumMetrics shippedDoc unshippedDoc).total_orders = 2 := rfl
  refine ⟨h1, h2, h3, ?_⟩
  rw [h1, h2, h3]
  norm_num

lemma zipWith_empty_left (m : Metrics) :
    List.zipWith (· + ·) (additiveVec emptyMetrics) (additiveVec m) =
      additiveVec m := by
  dsimp only [additiveVec, emptyMetrics, zeroSources, List.zipWith]
  push_cast
  simp

lemma sumMetrics_costCoherent (a b : Metrics) : CostCoherent (sumMetrics a b) :=
  ⟨rfl, rfl⟩

lemma foldSum_go (l : List Metrics) :
    ∀ a : Metrics,
      ∃ r, List.foldl
          (fun acc m =>
            match acc with
            | none => some m
            | some x => some (sumMetrics x m)) (some a) l = some r ∧
        additiveVec r =
          l.foldl (fun v m => List.zipWith (· + ·) v (additiveVec m))
            (additiveVec a) ∧
        (r = a ∨ CostCoherent r) := by
  induction l with
  | nil => intro a; exact ⟨a, rfl, rfl, Or.inl rfl⟩
  | cons m t ih =>
    intro a
    obtain ⟨r, hfold, hvec, hcoh⟩ := ih (sumMetrics a m)
    refine ⟨r, hfold, ?_, ?_⟩
    · rw [hvec, List.foldl_cons, additiveVec_sumMetrics]
    · rcases hcoh with h | h
      · exact Or.inr (h ▸ sumMetrics_costCoherent a m)
      · exact Or.inr h

lemma foldSum_some {l : List Metrics} {r : Metrics} (h : foldSum l = some r) :
    additiveVec r = vecSum l ∧ ((∀ m ∈ l, CostCoherent m) → CostCoherent r) := by
  cases l with
  | nil => exact absurd h (by simp [foldSum])
  | cons x xs =>
    obtain ⟨r2, hfold, hvec, hcoh⟩ := foldSum_go xs x
    have hx : foldSum (x :: xs) = some r2 := by
      simpa [foldSum] using hfold
    have hr2 : r2 = r := by
      rw [hx] at h
      exact Option.some.injEq _ _ ▸ h
    subst hr2
    constructor
    · rw [hvec]
      simp only [vecSum, List.foldl_cons, zipWith_empty_left]
    · intro hall
      rcases hcoh with h1 | h1
      · exact h1 ▸ hall x (by simp)
      · exact h1

lemma listings_fold (docs : List (Option Metrics)) :
    ∀ (accM : Option Metrics) (accK : ℤ),
      docs.foldl
        (fun acc d =>
          match d with
          | none => acc
          | some m =>
            if m.has_complete_cost_data then
              (match acc.1 with
               | none => some m
               | some a => some (sumMetrics a m), acc.2)
            else (acc.1, acc.2 + 1)) (accM, accK) =
      (List.foldl
        (fun acc m =>
          match acc with
          | none => some m
          | some x => some (sumMetrics x m)) accM
        ((docs.filterMap id).filter (fun m => m.has_complete_cost_data)),
       accK + (((docs.filterMap id).filter
         (fun m => !m.has_complete_cost_data)).length : ℤ)) := by
  induction docs with
  | nil => intro accM accK; simp
  | cons d t ih =>
    intro accM accK
    cases d with
    | none => simpa using ih accM accK
    | some m =>
      have hfm : List.filterMap id (some m :: t) = m :: List.filterMap id t := by
        simp
      rw [List.foldl_cons, hfm]
      dsimp only
      by_cases hm : m.has_complete_cost_data
      · rw [if_pos hm, List.filter_cons, List.filter_cons, if_pos hm,
          if_neg (by simp [hm]), List.foldl_cons]
        exact ih _ accK
      · have hm2 : m.has_complete_cost_data = false := by simpa using hm
        rw [if_neg hm, List.filter_cons, List.filter_cons, if_neg (by simp [hm2]),
          if_pos (by simp [hm2]), ih accM (accK + 1)]
        refine congrArg _ ?_
        simp only [List.length_cons]
        push_cast
        ring

/-- C2: in a Shop-level rollup every located child listing without
complete cost data — in particular (given tally-coherent children) every
child with positive missing-cost quantity — is excluded from the
aggregate and counted in the `listings_skipped_no_cost` tally recorded
on the result, whose additive fields are the sums over the complete
children only; in a Listing-level rollup every child SKU document is
included (the additive fields are the sums over *all* children, missing
cost or not) and the parent's coverage percentage and completeness flag
are recomputed from the summed with-cost and missing-cost quantities. -/
theorem completeness_policy (docs : List (Option Metrics))
    (children : List Metrics) (r r2 : Metrics)
    (hcoh : ∀ m ∈ docs.filterMap id,
      0 < m.items_missing_cost → m.has_complete_cost_data = false)
    (hccoh : ∀ m ∈ children, CostCoherent m)
    (hr : aggregateFromListings docs = some r)
    (hr2 : aggregateFromSkus children = some r2) :
    r.listings_skipped_no_cost =
      (((docs.filterMap id).filter
        (fun m => !m.has_complete_cost_data)).length : ℤ) ∧
    additiveVec r =
      vecSum ((docs.filterMap id).filter (fun m => m.has_complete_cost_data)) ∧
    (∀ m ∈ docs.filterMap id, 0 < m.items_missing_cost →
      m ∉ (docs.filterMap id).filter (fun m => m.has_complete_cost_data)) ∧
    additiveVec r2 = vecSum children ∧
    CostCoherent r2 := by
  have hmem : ∀ m ∈ docs.filterMap id, 0 < m.items_missing_cost →
      m ∉ (docs.filterMap id).filter (fun m => m.has_complete_cost_data) := by
    intro m hm hmiss hin
    have hflag := hcoh m hm hmiss
    have := (List.mem_filter.mp hin).2
    rw [hflag] at this
    exact absurd this (by simp)
  simp only [aggregateFromListings] at hr
  rw [listings_fold docs none 0] at hr
  have hconv : List.foldl
      (fun acc m =>
        match acc with
        | none => some m
        | some x => some (sumMetrics x m)) none
      ((docs.filterMap id).filter (fun m => m.has_complete_cost_data)) =
      foldSum ((docs.filterMap id).filter (fun m => m.has_complete_cost_data)) :=
    rfl
  rw [hconv] at hr
  cases hfs : foldSum ((docs.filterMap id).filter
      (fun m => m.has_complete_cost_data)) with
  | none =>
    rw [hfs] at hr
    exact absurd hr (by simp)
  | some A =>
    rw [hfs] at hr
    have hrA : r = { A with
        listings_skipped_no_cost :=
          (0 : ℤ) + (((docs.filterMap id).filter
            (fun m => !m.has_complete_cost_data)).length : ℤ)
        listings_included := (docs.length : ℤ) -
          ((0 : ℤ) + (((docs.filterMap id).filter
            (fun m => !m.has_complete_cost_data)).length : ℤ)) } :=
      (Option.some.inj hr).symm
    obtain ⟨hAvec, _⟩ := foldSum_some hfs
    obtain ⟨hBvec, hBcoh⟩ := foldSum_some (l := children) hr2
    refine ⟨?_, ?_, hmem, hBvec, hBcoh hccoh⟩
    · rw [hrA]
      exact zero_add _
    · rw [hrA]
      exact hAvec

/-- C2 witness: one complete and one incomplete listing (plus one with
no document), and the same two documents as SKU children. -/
theorem completeness_policy_witness :
    (aggregateFromListings [some completeChildDoc, some incompleteChildDoc,
        none] = some { completeChildDoc with
          listings_skipped_no_cost := 1, listings_included := 2 }) ∧
    ({ completeChildDoc with
        listings_skipped_no_cost := 1,
        listings_included := 2 } : Metrics).listings_skipped_no_cost =
      ((([some completeChildDoc, some incompleteChildDoc,
        none].filterMap id).filter
          (fun m => !m.has_complete_cost_data)).length : ℤ) ∧
    additiveVec (sumMetrics completeChildDoc incompleteChildDoc) =
      vecSum [completeChildDoc, incompleteChildDoc] ∧
    CostCoherent (sumMetrics completeChildDoc incompleteChildDoc) := by
  have h := completeness_policy
    [some completeChildDoc, some incompleteChildDoc, none]
    [completeChildDoc, incompleteChildDoc]
    { completeChildDoc with listings_skipped_no_cost := 1, listings_included := 2 }
    (sumMetrics completeChildDoc incompleteChildDoc)
    (by decide)
    (by
      intro m hm
      rcases List.mem_cons.mp hm with h1 | h1
      · subst h1
        constructor
        · norm_num [completeChildDoc, emptyMetrics]
        · norm_num [completeChildDoc, emptyMetrics]
      · rcases List.mem_cons.mp h1 with h2 | h2
        · subst h2
          constructor
          · norm_num [incompleteChildDoc, emptyMetrics]
          · norm_num [incompleteChildDoc, emptyMetrics]
        · cases h2)
    rfl
    rfl
  exact ⟨rfl, h.1, h.2.2.2.1, h.2.2.2.2⟩

/-!
### The metrics calculator (C3, C6, C9)
-/

lemma zipWith_empty_right (m : Metrics) :
    List.zipWith (· + ·) (additiveVec m) (additiveVec emptyMetrics) =
      additiveVec m := by
  dsimp only [additiveVec, emptyMetrics, zeroSources, List.zipWith]
  push_cast
  simp

/-- C6: the marketplace-fee pipeline — taxableAmount, transaction fee,
processing fee (rate share plus fixed fee per completed order), their
total, net revenue and product revenue — follows the claimed formulas
over the completed orders' summed gross revenue, tax and VAT; and on the
spec's example batch (three completed orders, $300 gross, $20 tax, $0
VAT, default 6.5% / 3% + $0.25 rates) net revenue is $252.65. -/
theorem fee_pipeline (cfg : FeeConfig) (idx : CostIndex)
    (cs : Int → List PyStr) (env : ShipEnv) (orders : List Order)
    (sku : Option PyStr) (lid : Option Int) (ad : ℚ) (i1 i2 pd : ℤ) :
    ((calculateMetricsFromRows cfg idx cs env orders sku lid ad i1 i2
        pd).etsy_transaction_fees =
      (((completedOrders orders).map (·.grand_total)).sum -
        ((completedOrders orders).map (·.tax)).sum -
        ((completedOrders orders).map (·.vat)).sum) *
        cfg.etsy_transaction_fee_rate ∧
      (calculateMetricsFromRows cfg idx cs env orders sku lid ad i1 i2
        pd).etsy_processing_fees =
      (((completedOrders orders).map (·.grand_total)).sum -
        ((completedOrders orders).map (·.tax)).sum -
        ((completedOrders orders).map (·.vat)).sum) *
        cfg.etsy_processing_fee_rate +
        ((completedOrders orders).length : ℚ) * cfg.etsy_processing_fee_fixed ∧
      (calculateMetricsFromRows cfg idx cs env orders sku lid ad i1 i2
        pd).total_etsy_fees =
      (calculateMetricsFromRows cfg idx cs env orders sku lid ad i1 i2
        pd).etsy_transaction_fees +
        (calculateMetricsFromRows cfg idx cs env orders sku lid ad i1 i2
          pd).etsy_processing_fees ∧
      (calculateMetricsFromRows cfg idx cs env orders sku lid ad i1 i2
        pd).net_revenue =
      ((completedOrders orders).map (·.grand_total)).sum -
        (calculateMetricsFromRows cfg idx cs env orders sku lid ad i1 i2
          pd).total_etsy_fees -
        ((completedOrders orders).map (·.tax)).sum -
        ((completedOrders orders).map (·.vat)).sum ∧
      (calculateMetricsFromRows cfg idx cs env orders sku lid ad i1 i2
        pd).product_revenue =
      (calculateMetricsFromRows cfg idx cs env orders sku lid ad i1 i2
        pd).net_revenue -
        ((completedOrders orders).map (·.shipping)).sum -
        ((completedOrders orders).map (·.gift_wrap)).sum) ∧
    (calculateMetricsFromRows defaultFees [] (fun _ => []) emptyShipEnv
      feeExampleOrders none none 0 0 0 1).net_revenue = 25265 / 100 := by
  constructor
  · cases hc : completedOrders orders with
    | nil =>
      refine ⟨?_, ?_, ?_, ?_, ?_⟩ <;>
        simp [calculateMetricsFromRows, hc, emptyMetrics]
    | cons o os =>
      refine ⟨?_, ?_, ?_, ?_, ?_⟩ <;>
        simp [calculateMetricsFromRows, hc]
  · have hc : completedOrders feeExampleOrders =
        plainOrder 100 20 :: [plainOrder 100 0, plainOrder 100 0] := rfl
    rw [calculateMetricsFromRows, hc]
    norm_num [plainOrder, defaultFees]

/-- C3 counterexample: with a positive allocated ad spend ($10 here) the
computed net profit is gross profit minus refunds, retained fees *and ad
spend*, so the claimed identity
`netProfit = grossProfit − totalRefundAmount − etsyFeesRetainedOnRefunds`
fails. -/
theorem profit_identity_counterexample :
    (calculateMetricsFromRows defaultFees [] (fun _ => []) emptyShipEnv
      [plainOrder 100 0] none none 10 0 0 1).net_profit ≠
    (calculateMetricsFromRows defaultFees [] (fun _ => []) emptyShipEnv
      [plainOrder 100 0] none none 10 0 0 1).gross_profit -
    (calculateMetricsFromRows defaultFees [] (fun _ => []) emptyShipEnv
      [plainOrder 100 0] none none 10 0 0 1).total_refund_amount -
    (calculateMetricsFromRows defaultFees [] (fun _ => []) emptyShipEnv
      [plainOrder 100 0] none none 10 0 0 1).etsy_fees_retained_on_refunds := by
  have hc : completedOrders [plainOrder 100 0] = plainOrder 100 0 :: [] := rfl
  rw [calculateMetricsFromRows, hc]
  norm_num [plainOrder, defaultFees, costLoop, shipLoop]

/-- C3 amended: for every computed document,
`grossProfit = netRevenue − totalCostWithShipping` (where
totalCostWithShipping sums COGS, actual shipping, duty, import tax and
the shipping processing fee),
`etsyFeesRetainedOnRefunds = totalRefundAmount × transactionFeeRate`,
and `netProfit = grossProfit − totalRefundAmount −
etsyFeesRetainedOnRefunds − totalAdSpend` — the ad-spend term the claim
omitted. -/
theorem profit_identities (cfg : FeeConfig) (idx : CostIndex)
    (cs : Int → List PyStr) (env : ShipEnv) (orders : List Order)
    (sku : Option PyStr) (lid : Option Int) (ad : ℚ) (i1 i2 pd : ℤ) :
    (calculateMetricsFromRows cfg idx cs env orders sku lid ad i1 i2
      pd).gross_profit =
      (calculateMetricsFromRows cfg idx cs env orders sku lid ad i1 i2
        pd).net_revenue -
      (calculateMetricsFromRows cfg idx cs env orders sku lid ad i1 i2
        pd).total_cost_with_shipping ∧
    (calculateMetricsFromRows cfg idx cs env orders sku lid ad i1 i2
      pd).etsy_fees_retained_on_refunds =
      (calculateMetricsFromRows cfg idx cs env orders sku lid ad i1 i2
        pd).total_refund_amount * cfg.etsy_transaction_fee_rate ∧
    (calculateMetricsFromRows cfg idx cs env orders sku lid ad i1 i2
      pd).net_profit =
      (calculateMetricsFromRows cfg idx cs env orders sku lid ad i1 i2
        pd).gross_profit -
      (calculateMetricsFromRows cfg idx cs env orders sku lid ad i1 i2
        pd).total_refund_amount -
      (calculateMetricsFromRows cfg idx cs env orders sku lid ad i1 i2
        pd).etsy_fees_retained_on_refunds -
      (calculateMetricsFromRows cfg idx cs env orders sku lid ad i1 i2
        pd).total_ad_spend := by
  cases hc : completedOrders orders with
  | nil =>
    refine ⟨?_, ?_, ?_⟩ <;> simp [calculateMetricsFromRows, hc, emptyMetrics]
  | cons o os =>
    refine ⟨?_, ?_, ?_⟩ <;> simp [calculateMetricsFromRows, hc]

/-- C9 counterexample: a batch of two cancelled (and no completed)
orders yields `_empty_metrics`, whose cancellation counter is 0 — the
empty document does not carry the period's cancellation count of 2. -/
theorem empty_document_counterexample :
    (calculateMetricsFromRows defaultFees [] (fun _ => []) emptyShipEnv
      [cancelledOrder, cancelledOrder] none none 0 0 0 1).cancelled_orders = 0 ∧
    (([cancelledOrder, cancelledOrder] : List Order).filter
      (fun o => isCancelled o)).length = 2 ∧
    (calculateMetricsFromRows defaultFees [] (fun _ => []) emptyShipEnv
      [cancelledOrder, cancelledOrder] none none 0 0 0 1).cancelled_orders ≠
      ((([cancelledOrder, cancelledOrder] : List Order).filter
        (fun o => isCancelled o)).length : ℤ) := by
  decide

/-- C9 amended: a batch with no completed orders never fails — it
returns the all-zero `_empty_metrics` document (cancellation counters
included) — and aggregating that document into any parent leaves every
additive field of the parent, revenue and cost fields among them,
unchanged. -/
theorem empty_document_amended (cfg : FeeConfig) (idx : CostIndex)
    (cs : Int → List PyStr) (env : ShipEnv) (orders : List Order)
    (sku : Option PyStr) (lid : Option Int) (ad : ℚ) (i1 i2 pd : ℤ)
    (p : Metrics) (h : completedOrders orders = []) :
    calculateMetricsFromRows cfg idx cs env orders sku lid ad i1 i2 pd =
      emptyMetrics ∧
    additiveVec (sumMetrics p emptyMetrics) = additiveVec p := by
  constructor
  · rw [calculateMetricsFromRows, h]
  · rw [additiveVec_sumMetrics, zipWith_empty_right]

/-- C9 witness: one cancelled order; a concrete parent document. -/
theorem empty_document_amended_witness :
    calculateMetricsFromRows defaultFees [] (fun _ => []) emptyShipEnv
      [cancelledOrder] none none 0 0 0 1 = emptyMetrics ∧
    additiveVec (sumMetrics denseDoc emptyMetrics) = additiveVec denseDoc :=
  empty_document_amended defaultFees [] (fun _ => []) emptyShipEnv
    [cancelledOrder] none none 0 0 0 1 denseDoc rfl

/-!
### Shipping-cost resolution (C7, C10)
-/

lemma shipStep_components (env : ShipEnv) (country : Option PyStr)
    (acc : ShipAcc) (t : Txn) :
    shipStep env country acc t =
      ⟨acc.shipping + (resolveShippingSpec env country t).shipping,
       acc.duty + (resolveShippingSpec env country t).duty,
       acc.tax + (resolveShippingSpec env country t).tax,
       acc.processing + (resolveShippingSpec env country t).processing⟩ := by
  unfold shipStep resolveShippingSpec
  by_cases hs : t.sku = []
  · cases acc
    simp [hs]
  · by_cases hus : isUsCountry country
    · simp [hs, hus]
    · cases acc
      simp [hs, hus]

lemma shipFold_txns (env : ShipEnv) (country : Option PyStr) :
    ∀ (ts : List Txn) (acc : ShipAcc),
      ts.foldl (shipStep env country) acc =
        ⟨acc.shipping + (ts.map
            (fun t => (resolveShippingSpec env country t).shipping)).sum,
         acc.duty + (ts.map
            (fun t => (resolveShippingSpec env country t).duty)).sum,
         acc.tax + (ts.map
            (fun t => (resolveShippingSpec env country t).tax)).sum,
         acc.processing + (ts.map
            (fun t => (resolveShippingSpec env country t).processing)).sum⟩ := by
  intro ts
  induction ts with
  | nil => intro acc; cases acc; simp
  | cons t ts ih =>
    intro acc
    rw [List.foldl_cons, ih, shipStep_components]
    simp only [List.map_cons, List.sum_cons]
    congr 1 <;> ring

lemma shipLoop_sum (env : ShipEnv) :
    ∀ (l : List Order) (acc : ShipAcc),
      l.foldl (fun acc o => o.transactions.foldl (shipStep env o.country) acc)
          acc =
        ⟨acc.shipping + (l.map (fun o => (o.transactions.map
            (fun t => (resolveShippingSpec env o.country t).shipping)).sum)).sum,
         acc.duty + (l.map (fun o => (o.transactions.map
            (fun t => (resolveShippingSpec env o.country t).duty)).sum)).sum,
         acc.tax + (l.map (fun o => (o.transactions.map
            (fun t => (resolveShippingSpec env o.country t).tax)).sum)).sum,
         acc.processing + (l.map (fun o => (o.transactions.map
            (fun t => (resolveShippingSpec env o.country t).processing)).sum)).sum⟩ := by
  intro l
  induction l with
  | nil => intro acc; cases acc; simp
  | cons o t ih =>
    intro acc
    rw [List.foldl_cons, ih, shipFold_txns]
    simp only [List.map_cons, List.sum_cons]
    congr 1 <;> ring

lemma find?_le_sorted_least :
    ∀ {l : List ℚ}, l.Sorted (· ≤ ·) → ∀ {w t : ℚ},
      l.find? (fun u => w ≤ u) = some t →
      t ∈ l ∧ w ≤ t ∧ ∀ u ∈ l, w ≤ u → t ≤ u := by
  intro l
  induction l with
  | nil => intro _ w t h; simp at h
  | cons a rest ih =>
    intro hs w t h
    obtain ⟨ha, hrest⟩ := List.sorted_cons.mp hs
    by_cases hwa : w ≤ a
    · rw [List.find?_cons_of_pos _ (by simpa using hwa)] at h
      obtain rfl : a = t := by simpa using h
      refine ⟨by simp, hwa, ?_⟩
      intro u hu _
      rcases List.mem_cons.mp hu with rfl | hu
      · exact le_rfl
      · exact ha u hu
    · rw [List.find?_cons_of_neg _ (by simpa using hwa)] at h
      obtain ⟨h1, h2, h3⟩ := ih hrest h
      refine ⟨by simp [h1], h2, ?_⟩
      intro u hu hw
      rcases List.mem_cons.mp hu with rfl | hu
      · exact absurd hw hwa
      · exact h3 u hu hw

lemma sorted_le_getLast :
    ∀ {l : List ℚ}, l.Sorted (· ≤ ·) → ∀ (h : l ≠ []) u, u ∈ l →
      u ≤ l.getLast h := by
  intro l
  induction l with
  | nil => intro _ h; exact absurd rfl h
  | cons a rest ih =>
    intro hs h u hu
    obtain ⟨ha, hrest⟩ := List.sorted_cons.mp hs
    by_cases hrne : rest = []
    · subst hrne
      obtain rfl : u = a := by simpa using hu
      simp [List.getLast]
    · rw [List.getLast_cons hrne]
      rcases List.mem_cons.mp hu with rfl | hu2
      · exact ha _ (List.getLast_mem hrne)
      · exact ih hrest hrne u hu2

lemma isEmpty_false_of_ne_nil {l : List PricingRow} (h : l ≠ []) :
    l.isEmpty = false := by
  cases l with
  | nil => exact absurd rfl h
  | cons a t => rfl

lemma weightTiers_sorted (env : ShipEnv) :
    (weightTiers env).Sorted (· ≤ ·) := by
  unfold weightTiers
  exact List.sorted_mergeSort' _

lemma weightTiers_ne_nil {env : ShipEnv} (hne : env.pricingRows ≠ []) :
    weightTiers env ≠ [] := by
  cases henv : env.pricingRows with
  | nil => exact absurd henv hne
  | cons r rest =>
    have hmem : r.weight ∈ (env.pricingRows.map (·.weight)).dedup := by
      rw [henv]
      simp [List.mem_dedup]
    have hmem2 : r.weight ∈ weightTiers env := by
      unfold weightTiers
      exact ((List.mergeSort_perm _ _).mem_iff).mpr hmem
    exact List.ne_nil_of_mem hmem2

lemma getLastD_of_ne_nil {l : List ℚ} (h : l ≠ []) (d : ℚ) :
    l.getLastD d = l.getLast h := by
  cases l with
  | nil => exact absurd rfl h
  | cons a t => rw [List.getLastD_eq_getLast?, List.getLast?_eq_getLast _ h]
                rfl

/-- C7: per line item of a completed order the shipping-cost loop
accumulates exactly the claimed per-line quantities — US destinations
pay `fedexCharge × quantity` and `processingFee × quantity` from the
flat table with duty/tax from `unitPrice × rate × quantity` whenever a
positive rate is published (the flat per-unit amount × quantity only
otherwise); any other destination resolves a zone from the country and
consults the tier matrix once per line item at `perUnitWeight ×
quantity` — and the matrix rounds the queried weight up to the least
published tier ≥ it, clamping to the maximum tier when it exceeds all
published tiers. -/
theorem shipping_per_line_and_tiers (cfg : FeeConfig) (idx : CostIndex)
    (cs : Int → List PyStr) (env : ShipEnv) (orders : List Order)
    (sku : Option PyStr) (lid : Option Int) (ad : ℚ) (i1 i2 pd : ℤ)
    (w : ℚ) (z : Int) (hne : env.pricingRows ≠ []) :
    ((calculateMetricsFromRows cfg idx cs env orders sku lid ad i1 i2
        pd).actual_shipping_cost =
      ((completedOrders orders).map (fun o => (o.transactions.map
        (fun t => (resolveShippingSpec env o.country t).shipping)).sum)).sum ∧
      (calculateMetricsFromRows cfg idx cs env orders sku lid ad i1 i2
        pd).duty_amount =
      ((completedOrders orders).map (fun o => (o.transactions.map
        (fun t => (resolveShippingSpec env o.country t).duty)).sum)).sum ∧
      (calculateMetricsFromRows cfg idx cs env orders sku lid ad i1 i2
        pd).tax_amount =
      ((completedOrders orders).map (fun o => (o.transactions.map
        (fun t => (resolveShippingSpec env o.country t).tax)).sum)).sum ∧
      (calculateMetricsFromRows cfg idx cs env orders sku lid ad i1 i2
        pd).fedex_processing_fee =
      ((completedOrders orders).map (fun o => (o.transactions.map
        (fun t => (resolveShippingSpec env o.country t).processing)).sum)).sum) ∧
    (∀ t, (weightTiers env).find? (fun u => w ≤ u) = some t →
      t ∈ weightTiers env ∧ w ≤ t ∧ (∀ u ∈ weightTiers env, w ≤ u → t ≤ u) ∧
      getFedexPrice env w z = priceAtTier env t z) ∧
    ((weightTiers env).find? (fun u => w ≤ u) = none →
      (∀ u ∈ weightTiers env, ¬ w ≤ u) ∧
      getFedexPrice env w z =
        priceAtTier env ((weightTiers env).getLastD w) z ∧
      ∀ u ∈ weightTiers env, u ≤ (weightTiers env).getLastD w) := by
  have hemp : env.pricingRows.isEmpty = false := isEmpty_false_of_ne_nil hne
  refine ⟨?_, ?_, ?_⟩
  · cases hc : completedOrders orders with
    | nil =>
      refine ⟨?_, ?_, ?_, ?_⟩ <;>
        simp [calculateMetricsFromRows, hc, emptyMetrics]
    | cons o os =>
      refine ⟨?_, ?_, ?_, ?_⟩ <;>
        simp [calculateMetricsFromRows, hc, shipLoop, shipLoop_sum env (o :: os)]
  · intro t hfind
    obtain ⟨h1, h2, h3⟩ := find?_le_sorted_least (weightTiers_sorted env) hfind
    refine ⟨h1, h2, h3, ?_⟩
    unfold getFedexPrice
    rw [hemp]
    simp only [Bool.false_eq_true, if_false]
    rw [hfind]
    rfl
  · intro hnone
    have hall : ∀ u ∈ weightTiers env, ¬ w ≤ u := by
      intro u hu
      have := List.find?_eq_none.mp hnone u hu
      simpa using this
    have htne := weightTiers_ne_nil hne
    refine ⟨hall, ?_, ?_⟩
    · unfold getFedexPrice
      rw [hemp]
      simp only [Bool.false_eq_true, if_false]
      rw [hnone]
      rfl
    · intro u hu
      rw [getLastD_of_ne_nil htne w]
      exact sorted_le_getLast (weightTiers_sorted env) htne u hu

/-- C7 witness: a two-tier matrix; weight 1.5 rounds up to tier 2, and
the per-line decomposition on an empty batch. -/
theorem shipping_per_line_and_tiers_witness :
    (2 : ℚ) ∈ weightTiers toyPricingEnv ∧ (3/2 : ℚ) ≤ 2 ∧
    (∀ u ∈ weightTiers toyPricingEnv, (3/2 : ℚ) ≤ u → 2 ≤ u) ∧
    getFedexPrice toyPricingEnv (3/2) 2 = priceAtTier toyPricingEnv 2 2 := by
  have htiers : weightTiers toyPricingEnv = [1, 2] := by
    have hd : (toyPricingEnv.pricingRows.map (·.weight)).dedup = [1, 2] := by
      decide
    unfold weightTiers
    rw [hd]
    exact List.mergeSort_eq_self (by norm_num [List.sorted_cons])
  have hfind : (weightTiers toyPricingEnv).find? (fun u => (3/2 : ℚ) ≤ u) =
      some 2 := by
    rw [htiers]
    rw [List.find?_cons_of_neg _ (by norm_num),
      List.find?_cons_of_pos _ (by norm_num)]
  exact (shipping_per_line_and_tiers defaultFees [] (fun _ => [])
    toyPricingEnv [] none none 0 0 0 1 (3/2) 2
    (by simp [toyPricingEnv, emptyShipEnv])).2.1 2 hfind

/-- C10: the shipping-resolution lookups are total with fixed defaults —
a SKU whose weight is found by none of the three lookup approaches
resolves to 0.5 kg; a country absent from the zone table (or empty, or
an empty table) resolves to zone 8; and a SKU that misses every lookup
path of the US table resolves to the all-zero cost row, so a US line
item for it contributes nothing to any of the four shipping-cost
accumulators. -/
theorem lookup_defaults (env : ShipEnv) (sku cc : PyStr)
    (hd1 : (env.skuToOttokod sku).bind
      (fun ok => if ok = [] then none else env.desiByOttokod ok) = none)
    (hd2 : (if normalizeSku sku = [] then none
      else (env.skuToOttokodNorm (normalizeSku sku)).bind
        (fun ok => if ok = [] then none else env.desiByOttokod ok)) = none)
    (hd3 : env.costCsvRows.findSome? (fun row =>
      if normalizeSku row.1 = normalizeSku sku then
        row.2.bind env.desiByOttokod else none) = none)
    (hz : env.zoneRows.find? (fun r => pyUpper r.1 = pyUpper cc) = none ∨
      env.zoneRows = [] ∨ cc = [])
    (hb1 : env.bulkShip sku = none)
    (hb2 : ((env.skuToOttokod sku).bind
      (fun k => if k = [] then none else some k)).bind env.bulkShip = none)
    (hb3 : (if normalizeSku sku = [] then none
      else ((env.skuToOttokodNorm (normalizeSku sku)).bind
        (fun k => if k = [] then none else some k)).bind env.bulkShip) = none)
    (hb4 : (env.bulkShipNorm (normalizeSku sku)).bind env.bulkShip = none)
    (hb5 : ∀ rows, env.usSkuRows = some rows →
      rows.find? (fun r => pyStrip r.key = pyStrip sku) = none ∧
      rows.find? (fun r => normalizeSku r.key = normalizeSku sku) = none)
    (hb6 : ∀ rows ok, env.usOttokodRows = some rows →
      rows.find? (fun r => pyStrip r.key = pyStrip ok) = none) :
    getDesiForSku env sku = 1/2 ∧
    getZoneForCountry env cc = 8 ∧
    getUsShippingCosts env sku = defaultUSCosts ∧
    (∀ (acc : ShipAcc) (t : Txn) (country : Option PyStr),
      isUsCountry country = true → t.sku = sku →
      shipStep env country acc t = acc) := by
  have hbindnone : ∀ (rows : List UsCsvRow), env.usOttokodRows = some rows →
      ∀ (o : Option PyStr),
      o.bind (fun ok => (rows.find?
        (fun r => pyStrip r.key = pyStrip ok)).map (·.costs)) = none := by
    intro rows huo o
    cases o with
    | none => rfl
    | some ok => simp [hb6 rows ok huo]
  have hus : getUsShippingCosts env sku = defaultUSCosts := by
    simp only [getUsShippingCosts]
    by_cases hsku : sku = []
    · simp [hsku]
    · by_cases hns : normalizeSku sku = []
      · have hb4x := hb4
        rw [hns] at hb4x
        simp only [hsku, if_neg, hb1, hb2, hns, if_pos, Option.bind_none, hb4x]
        cases husk : env.usSkuRows with
        | some rows =>
          have h51 := (hb5 rows husk).1
          have h52 := (hb5 rows husk).2
          rw [hns] at h52
          simp [husk, h51, h52]
        | none =>
          cases huo : env.usOttokodRows with
          | none => simp [husk, huo]
          | some rows => simp [husk, huo, hbindnone rows huo]
      · have hb3x : ((env.skuToOttokodNorm (normalizeSku sku)).bind
            (fun k => if k = [] then none else some k)).bind
            (fun a => env.bulkShip a) = none := by
          have h := hb3
          rwa [if_neg hns] at h
        simp only [hsku, if_neg, hb1, hb2]
        cases husk : env.usSkuRows with
        | some rows =>
          simp [husk, hns, hb3x, hb4, (hb5 rows husk).1, (hb5 rows husk).2]
        | none =>
          cases huo : env.usOttokodRows with
          | none => simp [husk, huo, hns, hb3x, hb4]
          | some rows => simp [husk, huo, hns, hb3x, hb4, hbindnone rows huo]
  refine ⟨?_, ?_, hus, ?_⟩
  · simp only [getDesiForSku]
    by_cases hg : env.desiEmpty = true ∨ sku = []
    · rw [if_pos hg]
    · rw [if_neg hg]
      simp [hd1, hd2, hd3]
  · unfold getZoneForCountry
    rcases hz with h | h | h
    · by_cases hg : env.zoneRows = [] ∨ cc = []
      · rw [if_pos hg]
      · rw [if_neg hg, h]
    · rw [if_pos (Or.inl h)]
    · rw [if_pos (Or.inr h)]
  · intro acc t country hcountry htsku
    unfold shipStep
    by_cases hts : t.sku = []
    · rw [if_pos hts]
    · rw [if_neg hts, if_pos hcountry, htsku, hus]
      cases acc
      simp [defaultUSCosts]

/-- C10 witness: the empty environment, a SKU and a non-US country. -/
theorem lookup_defaults_witness :
    getDesiForSku emptyShipEnv (pstr ("Widget-1")) = 1/2 ∧
    getZoneForCountry emptyShipEnv (pstr ("DE")) = 8 ∧
    getUsShippingCosts emptyShipEnv (pstr ("Widget-1")) = defaultUSCosts ∧
    (∀ (acc : ShipAcc) (t : Txn) (country : Option PyStr),
      isUsCountry country = true → t.sku = pstr ("Widget-1") →
      shipStep emptyShipEnv country acc t = acc) :=
  lookup_defaults emptyShipEnv (pstr ("Widget-1")) (pstr ("DE"))
    rfl (by simp [emptyShipEnv, normalizeSku]) rfl (Or.inl rfl)
    rfl rfl (by simp [emptyShipEnv, normalizeSku]) rfl
    (fun rows h => by simp [emptyShipEnv] at h)
    (fun rows ok h => by simp [emptyShipEnv] at h)
